import Mathlib

/-!
Shallow embedding of `src/workers/segmentation.worker.ts` from the
sam-image-cutout repository, together with theorems settling the frozen
claims about the local fallback segmentation algorithm.

Conventions of the embedding:
* An `ImageData.data` buffer (`Uint8ClampedArray`) is embedded as a total
  map `Nat → Nat` from byte index to byte value; the extractor only reads
  in-bounds indices, so totality is harmless.
* The mutable `Uint8Array` bitmaps `visited` and `mask` are embedded as
  maps `Nat → Nat`, updated functionally by `setByte`.
* Queue coordinates are `Int` because the source pushes `x - 1` and
  `y - 1`, which go negative at the border before the bounds check.
* The `while (queue.length > 0)` loop is embedded as a structurally
  recursive function on a fuel argument.  `floodFillFuel` below is a
  proven-sufficient fuel bound (`ffLoop_stable_of_le`), so the fuel value
  never influences the result: the embedded loop agrees with the
  unbounded source loop.
* JavaScript's `pixelCount > width * height * 0.5` on exact values is the
  integer comparison `width * height < 2 * pixelCount`.
* The generated region identifier (`Date.now()` / `Math.random()`) is the
  one nondeterministic output; it is omitted from the embedded `Region`,
  matching the claims, which all exclude the identifier.
-/

namespace SamCutout

set_option maxRecDepth 1000000
set_option maxHeartbeats 4000000
set_option exponentiation.threshold 10000

/-- Bounding box `{x, y, width, height}` of a region, in source-image
coordinates. -/
structure Bounds where
  x : Int
  y : Int
  width : Int
  height : Int
deriving DecidableEq

/-- One segmentation result: the full-image mask and its bounding box.
The source also carries a freshly generated string identifier
(`segment-${Date.now()}-${Math.random()}`), which is nondeterministic and
excluded here, as in every claim. -/
structure Region where
  maskData : Nat → Nat
  bounds : Bounds

/-- Functional update of a byte map, embedding `arr[i] = v` on a
`Uint8Array` / `Uint8ClampedArray`. -/
def setByte (f : Nat → Nat) (i v : Nat) : Nat → Nat :=
  fun j => if j = i then v else f j

/-- State of the flood-fill loop: the run-local `mask`, the shared
`visited` bitmap, the BFS `queue`, the accumulated bounding box, and the
accepted pixel count. -/
structure FFState where
  mask : Nat → Nat
  visited : Nat → Nat
  queue : List (Int × Int)
  minX : Int
  maxX : Int
  minY : Int
  maxY : Int
  pixelCount : Nat

/-- Sum of absolute differences of the red, green and blue channels
between the pixel whose red channel sits at byte `pixelIdx` and the
target color `(tr, tg, tb)`; the alpha channel at `pixelIdx + 3` is never
read.  Embeds the `colorDiff` computation of `floodFill`. -/
def colorDiff (data : Nat → Nat) (pixelIdx tr tg tb : Nat) : Nat :=
  ((data pixelIdx : Int) - (tr : Int)).natAbs
    + ((data (pixelIdx + 1) : Int) - (tg : Int)).natAbs
    + ((data (pixelIdx + 2) : Int) - (tb : Int)).natAbs

/-- Body of the flood-fill `while` loop, processing the popped coordinate
`(x, y)` with `rest` the remaining queue.  Returns the next state and a
flag that is `true` exactly when the source executes `break` (the safety
cap `pixelCount > width * height * 0.5` right after an acceptance). -/
def ffBody (data : Nat → Nat) (width height tr tg tb tolerance : Nat)
    (s : FFState) (x y : Int) (rest : List (Int × Int)) : FFState × Bool :=
  let idx := (y * (width : Int) + x).toNat
  if x < 0 ∨ (width : Int) ≤ x ∨ y < 0 ∨ (height : Int) ≤ y then
    ({ s with queue := rest }, false)
  else if s.visited idx ≠ 0 ∨ s.mask idx ≠ 0 then
    ({ s with queue := rest }, false)
  else if tolerance < colorDiff data (idx * 4) tr tg tb then
    ({ s with queue := rest }, false)
  else
    let s' : FFState :=
      { mask := setByte s.mask idx 255
        visited := setByte s.visited idx 1
        queue := rest ++ [(x + 1, y), (x - 1, y), (x, y + 1), (x, y - 1)]
        minX := min s.minX x
        maxX := max s.maxX x
        minY := min s.minY y
        maxY := max s.maxY y
        pixelCount := s.pixelCount + 1 }
    (s', decide (width * height < 2 * s'.pixelCount))

/-- The flood-fill `while (queue.length > 0)` loop, fuel-indexed.  The
loop stops when the queue empties or the body signals `break`. -/
def ffLoop (data : Nat → Nat) (width height tr tg tb tolerance : Nat) :
    Nat → FFState → FFState
  | 0, s => s
  | fuel + 1, s =>
    match s.queue with
    | [] => s
    | (x, y) :: rest =>
      let r := ffBody data width height tr tg tb tolerance s x y rest
      if r.2 then r.1
      else ffLoop data width height tr tg tb tolerance fuel r.1

/-- Fuel that provably suffices for `ffLoop` to reach a terminal state
(see `ffLoop_stable_of_le`). -/
def floodFillFuel (width height : Nat) : Nat :=
  5 * (width * height) + 1

/-- Initial flood-fill state: empty mask, caller-supplied shared visited
bitmap, queue seeded with the start coordinate, bounding box collapsed to
the start coordinate, zero accepted pixels. -/
def ffInit (visited : Nat → Nat) (startX startY : Nat) : FFState :=
  { mask := fun _ => 0
    visited := visited
    queue := [((startX : Int), (startY : Int))]
    minX := (startX : Int)
    maxX := (startX : Int)
    minY := (startY : Int)
    maxY := (startY : Int)
    pixelCount := 0 }

/-- The state in which the flood-fill loop of
`floodFill(data, width, height, startX, startY, visited, tolerance)`
terminates.  The target color is read from the start pixel. -/
def floodFillState (data : Nat → Nat) (width height startX startY : Nat)
    (visited : Nat → Nat) (tolerance : Nat) : FFState :=
  let startIdx := (startY * width + startX) * 4
  ffLoop data width height
    (data startIdx) (data (startIdx + 1)) (data (startIdx + 2)) tolerance
    (floodFillFuel width height) (ffInit visited startX startY)

/-- `floodFill` of the source: returns the optional region (null when
fewer than 100 pixels were accepted) together with the mutated shared
visited bitmap. -/
def floodFill (data : Nat → Nat) (width height startX startY : Nat)
    (visited : Nat → Nat) (tolerance : Nat) : Option Region × (Nat → Nat) :=
  let s := floodFillState data width height startX startY visited tolerance
  (if s.pixelCount < 100 then none
   else some
     { maskData := s.mask
       bounds :=
         { x := s.minX
           y := s.minY
           width := s.maxX - s.minX + 1
           height := s.maxY - s.minY + 1 } },
   s.visited)

/-- One axis of the sampling grid: the loop
`for (let y = step; y < bound; y += step)`, fuel-indexed; `none` models
fuel exhaustion (the source loop never terminates when `step = 0` and
`bound > 0`). -/
def axisLoop : Nat → Nat → Nat → Nat → Option (List Nat)
  | 0, _, _, _ => none
  | fuel + 1, step, bound, y =>
    if y < bound then (axisLoop fuel step bound (y + step)).map (y :: ·)
    else some []

/-- Structurally recursive integer square root by downward search:
`floorSqrtAux n k` is the largest `j ≤ k` with `j * j ≤ n`.  Proven equal
to `Nat.sqrt` in `floorSqrt_eq_sqrt`; kept structural so that concrete
witnesses evaluate in the kernel. -/
def floorSqrtAux (n : Nat) : Nat → Nat
  | 0 => 0
  | k + 1 => if (k + 1) * (k + 1) ≤ n then k + 1 else floorSqrtAux n k

/-- `Math.floor(Math.sqrt(n))` on a natural number `n`. -/
def floorSqrt (n : Nat) : Nat :=
  floorSqrtAux n n

/-- `getSamplePoints(width, height, count)` of the source: stride
`step = Math.floor(Math.sqrt((width * height) / count))` — which equals
`floorSqrt (width * height / count)` because
`⌊√(⌊a / b⌋)⌋ = ⌊√(a / b)⌋` for nonnegative reals — then the nested
row-major loops over `y` and `x` starting at `step`.  `none` models the
divergence of the source loops when the stride is zero; fuel `bound + 1`
is sufficient for any positive stride. -/
def getSamplePoints (width height count : Nat) : Option (List (Nat × Nat)) :=
  let step := floorSqrt (width * height / count)
  match axisLoop (height + 1) step height step,
      axisLoop (width + 1) step width step with
  | some ys, some xs => some (ys.flatMap fun y => xs.map fun x => (x, y))
  | _, _ => none

/-- Click-mode tolerance: the literal `30` passed to `floodFill` in the
`clickPoint` branch of `performLocalSegmentation`. -/
def clickTolerance : Nat := 30

/-- Auto-mode tolerance: the literal `25` passed to `floodFill` in the
grid-sampling branch of `performLocalSegmentation`. -/
def autoTolerance : Nat := 25

/-- The `for (const point of samplePoints)` loop of the auto-segmentation
branch: skip visited seeds, flood fill, keep regions whose bounding box
is strictly wider and taller than 20 pixels, stop once 15 regions are
accepted.  Returns the accumulated segments and the final shared visited
bitmap. -/
def autoLoop (data : Nat → Nat) (width height : Nat) :
    List (Nat × Nat) → (Nat → Nat) → List Region → List Region × (Nat → Nat)
  | [], visited, segments => (segments, visited)
  | (px, py) :: rest, visited, segments =>
    let idx := py * width + px
    if visited idx ≠ 0 then autoLoop data width height rest visited segments
    else
      let r := floodFill data width height px py visited autoTolerance
      let segments' :=
        match r.1 with
        | some seg =>
          if 20 < seg.bounds.width ∧ 20 < seg.bounds.height then
            segments ++ [seg]
          else segments
        | none => segments
      if 15 ≤ segments'.length then (segments', r.2)
      else autoLoop data width height rest r.2 segments'

/-- `performLocalSegmentation(imageData, clickPoint)`: click mode runs a
single flood fill with `clickTolerance`; auto mode samples a grid of 20
seed points and folds `autoLoop` over it with a fresh visited bitmap.
`none` models divergence of `getSamplePoints` (zero stride). -/
def performLocalSegmentation (data : Nat → Nat) (width height : Nat)
    (clickPoint : Option (Nat × Nat)) : Option (List Region) :=
  match clickPoint with
  | some (cx, cy) =>
    let r := floodFill data width height cx cy (fun _ => 0) clickTolerance
    some (match r.1 with | some seg => [seg] | none => [])
  | none =>
    match getSamplePoints width height 20 with
    | some pts => some (autoLoop data width height pts (fun _ => 0) []).1
    | none => none

/-- A region record of the external service response, after base64
decoding: the decoded mask bytes, the declared mask shape, and the
declared bounding box. -/
structure APISegment where
  maskData : List Nat
  shapeW : Nat
  shapeH : Nat
  bounds : Bounds

/-- `convertAPISegment(apiSegment, imageWidth, imageHeight)`: `none`
embeds the `return null` on mask byte-length mismatch.  When the declared
shape matches the image the decoded bytes are copied into the full-image
mask (`fullMask.set(maskData)`); otherwise only a warning is logged and
the freshly allocated all-zero mask is returned unchanged. -/
def convertAPISegment (seg : APISegment) (imageWidth imageHeight : Nat) :
    Option Region :=
  let expectedSize := seg.shapeW * seg.shapeH
  if seg.maskData.length ≠ expectedSize then none
  else
    let fullMask : Nat → Nat :=
      if seg.shapeW = imageWidth ∧ seg.shapeH = imageHeight then
        fun i => if i < imageWidth * imageHeight then seg.maskData.getD i 0 else 0
      else fun _ => 0
    some { maskData := fullMask, bounds := seg.bounds }

/-- The success path of the `self.onmessage` handler: convert every
response region and filter out the `null` ones. -/
def handleSegmentResponse (segments : List APISegment)
    (imageWidth imageHeight : Nat) : List Region :=
  (segments.map fun seg => convertAPISegment seg imageWidth imageHeight).reduceOption

/-- The `segment` message handler.  `apiResponse = some segs` is a
decoded response of the external service (its regions are converted and
filtered, and the result is posted as is); `apiResponse = none` models
any thrown failure — network error, non-ok status, undecodable payload —
which the `catch` block turns into the local fallback. -/
def onSegmentMessage (apiResponse : Option (List APISegment))
    (data : Nat → Nat) (width height : Nat)
    (clickPoint : Option (Nat × Nat)) : Option (List Region) :=
  match apiResponse with
  | some segs => some (handleSegmentResponse segs width height)
  | none => performLocalSegmentation data width height clickPoint

/-! ### Basic lemmas -/

theorem floorSqrtAux_eq_min (n k : Nat) : floorSqrtAux n k = min (Nat.sqrt n) k := by
  induction k with
  | zero => simp [floorSqrtAux]
  | succ k ih =>
    rw [floorSqrtAux]
    by_cases h : (k + 1) * (k + 1) ≤ n
    · rw [if_pos h]
      have hle : k + 1 ≤ Nat.sqrt n := Nat.le_sqrt.mpr h
      omega
    · rw [if_neg h, ih]
      have hgt : Nat.sqrt n ≤ k := by
        by_contra hc
        exact h (Nat.le_sqrt.mp (by omega))
      omega

theorem floorSqrt_eq_sqrt (n : Nat) : floorSqrt n = Nat.sqrt n := by
  rw [floorSqrt, floorSqrtAux_eq_min]
  exact min_eq_left (Nat.sqrt_le_self n)

theorem setByte_self (f : Nat → Nat) (i v : Nat) : setByte f i v i = v := by
  simp [setByte]

theorem setByte_other (f : Nat → Nat) (i v j : Nat) (h : j ≠ i) :
    setByte f i v j = f j := by
  simp [setByte, h]

/-! ### Structural lemmas about the flood-fill loop -/

theorem idx_toNat_decomp (width : Nat) (x y : Int) (hx0 : 0 ≤ x) (hy0 : 0 ≤ y) :
    (y * (width : Int) + x).toNat = y.toNat * width + x.toNat := by
  obtain ⟨a, rfl⟩ := Int.eq_ofNat_of_zero_le hx0
  obtain ⟨b, rfl⟩ := Int.eq_ofNat_of_zero_le hy0
  rw [show ((b : Int) * (width : Int) + (a : Int))
      = ((b * width + a : Nat) : Int) by push_cast; ring]
  simp only [Int.toNat_natCast]

theorem idx_toNat_lt (width height : Nat) (x y : Int) (hx0 : 0 ≤ x)
    (hxw : x < (width : Int)) (hy0 : 0 ≤ y) (hyh : y < (height : Int)) :
    (y * (width : Int) + x).toNat < width * height := by
  rw [idx_toNat_decomp width x y hx0 hy0]
  have ha : x.toNat < width := by omega
  have hb : y.toNat < height := by omega
  calc y.toNat * width + x.toNat < (y.toNat + 1) * width := by ring_nf; omega
    _ ≤ height * width := Nat.mul_le_mul_right _ (by omega)
    _ = width * height := Nat.mul_comm _ _

/-- Complete case analysis of the loop body: either the popped pixel is
rejected (only the queue shrinks) or it is accepted with the full state
update of the source. -/
theorem ffBody_eq_or (data : Nat → Nat) (width height tr tg tb tolerance : Nat)
    (s : FFState) (x y : Int) (rest : List (Int × Int)) :
    ffBody data width height tr tg tb tolerance s x y rest
        = ({ s with queue := rest }, false)
    ∨ (0 ≤ x ∧ x < (width : Int) ∧ 0 ≤ y ∧ y < (height : Int)
      ∧ s.visited (y * (width : Int) + x).toNat = 0
      ∧ s.mask (y * (width : Int) + x).toNat = 0
      ∧ colorDiff data ((y * (width : Int) + x).toNat * 4) tr tg tb ≤ tolerance
      ∧ ffBody data width height tr tg tb tolerance s x y rest =
        ({ mask := setByte s.mask (y * (width : Int) + x).toNat 255
           visited := setByte s.visited (y * (width : Int) + x).toNat 1
           queue := rest ++ [(x + 1, y), (x - 1, y), (x, y + 1), (x, y - 1)]
           minX := min s.minX x
           maxX := max s.maxX x
           minY := min s.minY y
           maxY := max s.maxY y
           pixelCount := s.pixelCount + 1 },
         decide (width * height < 2 * (s.pixelCount + 1)))) := by
  simp only [ffBody]
  by_cases h1 : x < 0 ∨ (width : Int) ≤ x ∨ y < 0 ∨ (height : Int) ≤ y
  · rw [if_pos h1]; exact Or.inl rfl
  · rw [if_neg h1]
    by_cases h2 : s.visited (y * (width : Int) + x).toNat ≠ 0
        ∨ s.mask (y * (width : Int) + x).toNat ≠ 0
    · rw [if_pos h2]; exact Or.inl rfl
    · rw [if_neg h2]
      by_cases h3 : tolerance
          < colorDiff data ((y * (width : Int) + x).toNat * 4) tr tg tb
      · rw [if_pos h3]; exact Or.inl rfl
      · rw [if_neg h3]
        push_neg at h1 h2
        exact Or.inr ⟨h1.1, h1.2.1, h1.2.2.1, h1.2.2.2, h2.1, h2.2, by omega, rfl⟩

theorem ffLoop_zero (data : Nat → Nat) (width height tr tg tb tolerance : Nat)
    (s : FFState) : ffLoop data width height tr tg tb tolerance 0 s = s := rfl

theorem ffLoop_nil (data : Nat → Nat) (width height tr tg tb tolerance fuel : Nat)
    (s : FFState) (hq : s.queue = []) :
    ffLoop data width height tr tg tb tolerance (fuel + 1) s = s := by
  rw [ffLoop, hq]

theorem ffLoop_cons (data : Nat → Nat) (width height tr tg tb tolerance fuel : Nat)
    (s : FFState) (x y : Int) (rest : List (Int × Int))
    (hq : s.queue = (x, y) :: rest) :
    ffLoop data width height tr tg tb tolerance (fuel + 1) s =
      (if (ffBody data width height tr tg tb tolerance s x y rest).2 then
        (ffBody data width height tr tg tb tolerance s x y rest).1
      else ffLoop data width height tr tg tb tolerance fuel
        (ffBody data width height tr tg tb tolerance s x y rest).1) := by
  rw [ffLoop, hq]

/-- Any property preserved by the loop body is preserved by the whole
loop. -/
theorem ffLoop_invariant (data : Nat → Nat)
    (width height tr tg tb tolerance : Nat) (P : FFState → Prop)
    (hP : ∀ s x y rest, s.queue = (x, y) :: rest → P s →
      P (ffBody data width height tr tg tb tolerance s x y rest).1) :
    ∀ fuel s, P s → P (ffLoop data width height tr tg tb tolerance fuel s) := by
  intro fuel
  induction fuel with
  | zero => intro s hs; exact hs
  | succ fuel ih =>
    intro s hs
    rcases hq : s.queue with _ | ⟨⟨x, y⟩, rest⟩
    · rw [ffLoop_nil data width height tr tg tb tolerance fuel s hq]; exact hs
    · rw [ffLoop_cons data width height tr tg tb tolerance fuel s x y rest hq]
      split
      · exact hP s x y rest hq hs
      · exact ih _ (hP s x y rest hq hs)

/-! ### Fuel sufficiency -/

/-- Number of in-bounds pixels not yet claimed by the run mask. -/
def unmaskedCount (width height : Nat) (s : FFState) : Nat :=
  ((Finset.range (width * height)).filter fun i => s.mask i = 0).card

/-- Termination measure of the flood-fill loop. -/
def ffMeasure (width height : Nat) (s : FFState) : Nat :=
  5 * unmaskedCount width height s + s.queue.length

theorem filter_setByte_erase (n : Nat) (m : Nat → Nat) (idx : Nat) :
    ((Finset.range n).filter fun i => setByte m idx 255 i = 0)
      = ((Finset.range n).filter fun i => m i = 0).erase idx := by
  ext j
  simp only [Finset.mem_filter, Finset.mem_erase, Finset.mem_range, setByte]
  by_cases h : j = idx
  · subst h; simp
  · simp only [if_neg h, h, ne_eq, not_false_eq_true, true_and]
    tauto

theorem ffBody_measure_lt (data : Nat → Nat)
    (width height tr tg tb tolerance : Nat) (s : FFState) (x y : Int)
    (rest : List (Int × Int)) (hq : s.queue = (x, y) :: rest) :
    ffMeasure width height (ffBody data width height tr tg tb tolerance s x y rest).1
      < ffMeasure width height s := by
  rcases ffBody_eq_or data width height tr tg tb tolerance s x y rest with
    h | ⟨hx0, hxw, hy0, hyh, hv, hm, hd, h⟩
  · rw [h]
    simp only [ffMeasure, unmaskedCount, hq]
    simp
  · rw [h]
    have hidx : (y * (width : Int) + x).toNat < width * height :=
      idx_toNat_lt width height x y hx0 hxw hy0 hyh
    have hmem : (y * (width : Int) + x).toNat
        ∈ (Finset.range (width * height)).filter fun i => s.mask i = 0 := by
      simp only [Finset.mem_filter, Finset.mem_range]
      exact ⟨hidx, hm⟩
    have hcard : 0 < ((Finset.range (width * height)).filter
        fun i => s.mask i = 0).card := Finset.card_pos.mpr ⟨_, hmem⟩
    simp only [ffMeasure, unmaskedCount, hq]
    rw [filter_setByte_erase, Finset.card_erase_of_mem hmem]
    simp only [List.length_append, List.length_cons, List.length_nil]
    omega

/-- More fuel than the measure changes nothing: the fuel-indexed loop has
converged, so `floodFillFuel` is a faithful stand-in for the unbounded
source loop. -/
theorem ffLoop_stable (data : Nat → Nat)
    (width height tr tg tb tolerance : Nat) :
    ∀ fuel s, ffMeasure width height s ≤ fuel →
      ffLoop data width height tr tg tb tolerance (fuel + 1) s
        = ffLoop data width height tr tg tb tolerance fuel s := by
  intro fuel
  induction fuel with
  | zero =>
    intro s hs
    have hq : s.queue = [] := by
      have : s.queue.length = 0 := by
        have := hs
        simp only [ffMeasure] at this
        omega
      exact List.length_eq_zero.mp this
    rw [ffLoop_nil data width height tr tg tb tolerance 0 s hq, ffLoop_zero]
  | succ fuel ih =>
    intro s hs
    rcases hq : s.queue with _ | ⟨⟨x, y⟩, rest⟩
    · rw [ffLoop_nil data width height tr tg tb tolerance (fuel + 1) s hq,
        ffLoop_nil data width height tr tg tb tolerance fuel s hq]
    · have hlt := ffBody_measure_lt data width height tr tg tb tolerance s x y rest hq
      rw [ffLoop_cons data width height tr tg tb tolerance (fuel + 1) s x y rest hq,
        ffLoop_cons data width height tr tg tb tolerance fuel s x y rest hq]
      split
      · rfl
      · exact ih _ (by omega)

/-- With fuel at least the measure, the loop result is terminal: the
queue has emptied or the safety cap has just been exceeded. -/
theorem ffLoop_terminal (data : Nat → Nat)
    (width height tr tg tb tolerance : Nat) :
    ∀ fuel s, ffMeasure width height s ≤ fuel →
      (ffLoop data width height tr tg tb tolerance fuel s).queue = []
      ∨ width * height
          < 2 * (ffLoop data width height tr tg tb tolerance fuel s).pixelCount := by
  intro fuel
  induction fuel with
  | zero =>
    intro s hs
    left
    rw [ffLoop_zero]
    have : s.queue.length = 0 := by
      simp only [ffMeasure] at hs
      omega
    exact List.length_eq_zero.mp this
  | succ fuel ih =>
    intro s hs
    rcases hq : s.queue with _ | ⟨⟨x, y⟩, rest⟩
    · left
      rw [ffLoop_nil data width height tr tg tb tolerance fuel s hq, hq]
    · have hlt := ffBody_measure_lt data width height tr tg tb tolerance s x y rest hq
      rw [ffLoop_cons data width height tr tg tb tolerance fuel s x y rest hq]
      split
      · rename_i hb
        rcases ffBody_eq_or data width height tr tg tb tolerance s x y rest with
          h | ⟨-, -, -, -, -, -, -, h⟩
        · rw [h] at hb
          simp at hb
        · right
          rw [h] at hb ⊢
          exact of_decide_eq_true hb
      · exact ih _ (by omega)

theorem ffInit_measure (visited : Nat → Nat) (startX startY width height : Nat) :
    ffMeasure width height (ffInit visited startX startY) ≤ floodFillFuel width height := by
  have h1 : unmaskedCount width height (ffInit visited startX startY)
      ≤ width * height :=
    le_trans (Finset.card_filter_le _ _) (le_of_eq (Finset.card_range _))
  have h2 : (ffInit visited startX startY).queue.length = 1 := rfl
  simp only [ffMeasure, floodFillFuel, h2]
  omega

/-- The state reached by `floodFill` is terminal: the source loop, which
runs without fuel, stops exactly there. -/
theorem floodFillState_terminal (data : Nat → Nat)
    (width height startX startY : Nat) (visited : Nat → Nat) (tolerance : Nat) :
    (floodFillState data width height startX startY visited tolerance).queue = []
    ∨ width * height
        < 2 * (floodFillState data width height startX startY visited tolerance).pixelCount := by
  exact ffLoop_terminal data width height _ _ _ tolerance _ _
    (ffInit_measure visited startX startY width height)

/-! ### C1: per-pixel acceptance condition of the flood-fill loop body -/

/-- C1.  In `floodFill`'s loop, the popped pixel `(x, y)` is accepted into
the region — its mask entry set to 255, its visited entry set to 1, and
the pixel count incremented — if and only if it is in-bounds, not already
marked in the shared visited set, not already claimed by the current
run's mask, and the sum of absolute differences of its red, green and
blue channels from the start pixel's color (alpha is never read) is at
most the tolerance. -/
theorem floodFill_accepts_iff (data : Nat → Nat)
    (width height tr tg tb tolerance : Nat) (s : FFState) (x y : Int)
    (rest : List (Int × Int)) :
    ((ffBody data width height tr tg tb tolerance s x y rest).1.pixelCount
        = s.pixelCount + 1
      ∧ (ffBody data width height tr tg tb tolerance s x y rest).1.mask
          (y * (width : Int) + x).toNat = 255
      ∧ (ffBody data width height tr tg tb tolerance s x y rest).1.visited
          (y * (width : Int) + x).toNat = 1)
    ↔ (0 ≤ x ∧ x < (width : Int) ∧ 0 ≤ y ∧ y < (height : Int)
      ∧ s.visited (y * (width : Int) + x).toNat = 0
      ∧ s.mask (y * (width : Int) + x).toNat = 0
      ∧ colorDiff data ((y * (width : Int) + x).toNat * 4) tr tg tb
          ≤ tolerance) := by
  simp only [ffBody]
  by_cases h1 : x < 0 ∨ (width : Int) ≤ x ∨ y < 0 ∨ (height : Int) ≤ y
  · rw [if_pos h1]
    dsimp only
    constructor
    · rintro ⟨hpc, -, -⟩
      exact absurd hpc (by omega)
    · rintro ⟨hx0, hxw, hy0, hyh, -⟩
      exfalso
      rcases h1 with h | h | h | h <;> omega
  · rw [if_neg h1]
    by_cases h2 : s.visited (y * (width : Int) + x).toNat ≠ 0
        ∨ s.mask (y * (width : Int) + x).toNat ≠ 0
    · rw [if_pos h2]
      dsimp only
      constructor
      · rintro ⟨hpc, -, -⟩
        exact absurd hpc (by omega)
      · rintro ⟨-, -, -, -, hv, hm, -⟩
        exfalso
        rcases h2 with h | h
        · exact h hv
        · exact h hm
    · rw [if_neg h2]
      by_cases h3 : tolerance
          < colorDiff data ((y * (width : Int) + x).toNat * 4) tr tg tb
      · rw [if_pos h3]
        dsimp only
        constructor
        · rintro ⟨hpc, -, -⟩
          exact absurd hpc (by omega)
        · rintro ⟨-, -, -, -, -, -, hd⟩
          exfalso
          omega
      · rw [if_neg h3]
        dsimp only
        push_neg at h1 h2
        refine ⟨fun _ => ⟨h1.1, h1.2.1, h1.2.2.1, h1.2.2.2, h2.1, h2.2, by omega⟩,
          fun _ => ⟨rfl, ?_, ?_⟩⟩
        · exact setByte_self _ _ _
        · exact setByte_self _ _ _

/-! ### Visited-set invariants and region disjointness -/

/-- Relationship of the loop state to the visited bitmap `v0` the run
started from: `v0` only grows, mask pixels are visited, visited pixels
are old or masked, and mask pixels were unvisited at run start. -/
def FFInv (v0 : Nat → Nat) (s : FFState) : Prop :=
  (∀ i, v0 i ≠ 0 → s.visited i ≠ 0)
  ∧ (∀ i, s.mask i ≠ 0 → s.visited i ≠ 0)
  ∧ (∀ i, s.visited i ≠ 0 → v0 i ≠ 0 ∨ s.mask i ≠ 0)
  ∧ (∀ i, s.mask i ≠ 0 → v0 i = 0)

theorem ffBody_inv (data : Nat → Nat) (width height tr tg tb tolerance : Nat)
    (v0 : Nat → Nat) (s : FFState) (x y : Int) (rest : List (Int × Int))
    (hs : FFInv v0 s) :
    FFInv v0 (ffBody data width height tr tg tb tolerance s x y rest).1 := by
  obtain ⟨h1, h2, h3, h4⟩ := hs
  rcases ffBody_eq_or data width height tr tg tb tolerance s x y rest with
    h | ⟨-, -, -, -, hv, hm, -, h⟩
  · rw [h]
    exact ⟨h1, h2, h3, h4⟩
  · rw [h]
    refine ⟨fun i hi => ?_, fun i hi => ?_, fun i hi => ?_, fun i hi => ?_⟩
    · show setByte s.visited (y * (width : Int) + x).toNat 1 i ≠ 0
      by_cases hji : i = (y * (width : Int) + x).toNat
      · subst hji; simp [setByte]
      · simpa [setByte, hji] using h1 i hi
    · replace hi : setByte s.mask (y * (width : Int) + x).toNat 255 i ≠ 0 := hi
      show setByte s.visited (y * (width : Int) + x).toNat 1 i ≠ 0
      by_cases hji : i = (y * (width : Int) + x).toNat
      · subst hji; simp [setByte]
      · rw [setByte_other _ _ _ _ hji] at hi
        simpa [setByte, hji] using h2 i hi
    · replace hi : setByte s.visited (y * (width : Int) + x).toNat 1 i ≠ 0 := hi
      show v0 i ≠ 0 ∨ setByte s.mask (y * (width : Int) + x).toNat 255 i ≠ 0
      by_cases hji : i = (y * (width : Int) + x).toNat
      · subst hji
        right
        simp [setByte]
      · rw [setByte_other _ _ _ _ hji] at hi
        rcases h3 i hi with hc | hc
        · exact Or.inl hc
        · right
          simpa [setByte, hji] using hc
    · replace hi : setByte s.mask (y * (width : Int) + x).toNat 255 i ≠ 0 := hi
      by_cases hji : i = (y * (width : Int) + x).toNat
      · subst hji
        by_contra hne
        exact (h1 _ hne) hv
      · rw [setByte_other _ _ _ _ hji] at hi
        exact h4 i hi

theorem ffLoop_inv (data : Nat → Nat) (width height tr tg tb tolerance : Nat)
    (v0 : Nat → Nat) (fuel : Nat) (s : FFState) (hs : FFInv v0 s) :
    FFInv v0 (ffLoop data width height tr tg tb tolerance fuel s) :=
  ffLoop_invariant data width height tr tg tb tolerance (FFInv v0)
    (fun s x y rest _ h => ffBody_inv data width height tr tg tb tolerance
      v0 s x y rest h) fuel s hs

/-- What one `floodFill` call guarantees about the shared visited bitmap:
it only grows, and every pixel of a returned region was unvisited before
the call and is visited after it. -/
theorem floodFill_visited_spec (data : Nat → Nat)
    (width height startX startY : Nat) (v0 : Nat → Nat) (tolerance : Nat) :
    (∀ i, v0 i ≠ 0 →
      (floodFill data width height startX startY v0 tolerance).2 i ≠ 0)
    ∧ (∀ reg, (floodFill data width height startX startY v0 tolerance).1 = some reg →
      ∀ i, reg.maskData i ≠ 0 →
        v0 i = 0
        ∧ (floodFill data width height startX startY v0 tolerance).2 i ≠ 0) := by
  have hinv : FFInv v0 (floodFillState data width height startX startY v0 tolerance) := by
    apply ffLoop_inv
    exact ⟨fun i hi => hi, fun i hi => absurd rfl hi,
      fun i hi => Or.inl hi, fun i hi => absurd rfl hi⟩
  obtain ⟨h1, h2, h3, h4⟩ := hinv
  simp only [floodFill]
  constructor
  · intro i hi
    exact h1 i hi
  · intro reg hreg i hi
    split at hreg
    · exact absurd hreg (by simp)
    · obtain rfl := Option.some_injective _ hreg
      exact ⟨h4 i hi, h2 i hi⟩

/-- Two regions are disjoint when no pixel index is nonzero in both
masks. -/
def disjointRegions (r1 r2 : Region) : Prop :=
  ∀ i, r1.maskData i = 0 ∨ r2.maskData i = 0

/-- Every pixel of every accumulated region is marked in the visited
bitmap. -/
def regionsClaimed (visited : Nat → Nat) (segments : List Region) : Prop :=
  ∀ r ∈ segments, ∀ i, r.maskData i ≠ 0 → visited i ≠ 0

theorem autoLoop_disjoint (data : Nat → Nat) (width height : Nat) :
    ∀ (pts : List (Nat × Nat)) (visited : Nat → Nat) (segments : List Region),
      regionsClaimed visited segments → segments.Pairwise disjointRegions →
      (autoLoop data width height pts visited segments).1.Pairwise disjointRegions := by
  intro pts
  induction pts with
  | nil => intro visited segments _ hp; exact hp
  | cons p rest ih =>
    intro visited segments hclaim hp
    obtain ⟨px, py⟩ := p
    rw [autoLoop]
    by_cases hv : visited (py * width + px) ≠ 0
    · rw [if_pos hv]
      exact ih visited segments hclaim hp
    · rw [if_neg hv]
      dsimp only
      obtain ⟨hgrow, hreg⟩ :=
        floodFill_visited_spec data width height px py visited autoTolerance
      have hclaim' : regionsClaimed
          (floodFill data width height px py visited autoTolerance).2 segments :=
        fun r hr i hi => hgrow i (hclaim r hr i hi)
      rcases hseg : (floodFill data width height px py visited autoTolerance).1
        with - | seg
      · simp only [hseg]
        split
        · exact hp
        · exact ih _ _ hclaim' hp
      · simp only [hseg]
        by_cases hdim : 20 < seg.bounds.width ∧ 20 < seg.bounds.height
        · rw [if_pos hdim]
          have hclaim2 : regionsClaimed
              (floodFill data width height px py visited autoTolerance).2
              (segments ++ [seg]) := by
            intro r hr i hi
            rcases List.mem_append.mp hr with hr | hr
            · exact hclaim' r hr i hi
            · have hr' : r = seg := by simpa using hr
              rw [hr'] at hi
              exact (hreg seg hseg i hi).2
          have hp2 : (segments ++ [seg]).Pairwise disjointRegions := by
            rw [List.pairwise_append]
            refine ⟨hp, by simp, ?_⟩
            intro a ha b hb
            have hb' : b = seg := by simpa using hb
            intro i
            rw [hb']
            by_cases hma : a.maskData i = 0
            · exact Or.inl hma
            · right
              by_contra hmb
              exact hclaim a ha i hma (hreg seg hseg i hmb).1
          split
          · exact hp2
          · exact ih _ _ hclaim2 hp2
        · rw [if_neg hdim]
          split
          · exact hp
          · exact ih _ _ hclaim' hp

/-- C6.  After a full auto-segmentation run the returned regions are
pairwise disjoint: no pixel index is nonzero in two different returned
masks, because accepted pixels are marked in the shared visited set and
visited pixels are never accepted by a later flood fill of the pass. -/
theorem autoSegment_disjoint (data : Nat → Nat) (width height : Nat)
    (segments : List Region)
    (h : performLocalSegmentation data width height none = some segments) :
    segments.Pairwise disjointRegions := by
  simp only [performLocalSegmentation] at h
  rcases hpts : getSamplePoints width height 20 with - | pts
  · rw [hpts] at h
    exact absurd h (by simp)
  · rw [hpts] at h
    obtain rfl : (autoLoop data width height pts (fun _ => 0) []).1 = segments := by
      simpa using h
    exact autoLoop_disjoint data width height pts (fun _ => 0) []
      (fun r hr => absurd hr (by simp)) (by simp)

/-! ### Bounding-box geometry of the flood-fill state -/

theorem nat_idx_lt (width height a b : Nat) (ha : a < width) (hb : b < height) :
    b * width + a < width * height :=
  calc b * width + a < (b + 1) * width := by ring_nf; omega
    _ ≤ height * width := Nat.mul_le_mul_right _ (by omega)
    _ = width * height := Nat.mul_comm _ _

theorem setByte_preserve_nonzero (f : Nat → Nat) (i v j : Nat) (hv : v ≠ 0)
    (h : f j ≠ 0) : setByte f i v j ≠ 0 := by
  by_cases hji : j = i
  · subst hji
    simp [setByte, hv]
  · rw [setByte_other _ _ _ _ hji]
    exact h

/-- Geometry invariant of the loop state: while nothing is accepted the
box is collapsed at the start coordinate and the queue holds only the
start coordinate; every masked pixel is an in-bounds pixel inside the
box; and, once nonempty, each side of the box is attained by a masked
pixel. -/
def FFGeom (width height startX startY : Nat) (s : FFState) : Prop :=
  (s.pixelCount = 0 →
    s.minX = (startX : Int) ∧ s.maxX = (startX : Int)
    ∧ s.minY = (startY : Int) ∧ s.maxY = (startY : Int)
    ∧ ∀ p ∈ s.queue, p = ((startX : Int), (startY : Int)))
  ∧ (∀ i, s.mask i ≠ 0 → ∃ a b, i = b * width + a ∧ a < width ∧ b < height
      ∧ s.minX ≤ (a : Int) ∧ (a : Int) ≤ s.maxX
      ∧ s.minY ≤ (b : Int) ∧ (b : Int) ≤ s.maxY)
  ∧ (0 < s.pixelCount →
      (∃ a b, a < width ∧ b < height ∧ s.mask (b * width + a) ≠ 0 ∧ (a : Int) = s.minX)
      ∧ (∃ a b, a < width ∧ b < height ∧ s.mask (b * width + a) ≠ 0 ∧ (a : Int) = s.maxX)
      ∧ (∃ a b, a < width ∧ b < height ∧ s.mask (b * width + a) ≠ 0 ∧ (b : Int) = s.minY)
      ∧ (∃ a b, a < width ∧ b < height ∧ s.mask (b * width + a) ≠ 0 ∧ (b : Int) = s.maxY))

theorem ffBody_geom (data : Nat → Nat) (width height tr tg tb tolerance : Nat)
    (startX startY : Nat) (s : FFState) (x y : Int) (rest : List (Int × Int))
    (hq : s.queue = (x, y) :: rest)
    (hs : FFGeom width height startX startY s) :
    FFGeom width height startX startY
      (ffBody data width height tr tg tb tolerance s x y rest).1 := by
  obtain ⟨g0, gb, ga⟩ := hs
  rcases ffBody_eq_or data width height tr tg tb tolerance s x y rest with
    h | ⟨hx0, hxw, hy0, hyh, hv, hm, hd, h⟩
  · rw [h]
    refine ⟨fun hpc => ?_, gb, ga⟩
    obtain ⟨e1, e2, e3, e4, e5⟩ := g0 hpc
    exact ⟨e1, e2, e3, e4,
      fun p hp => e5 p (by rw [hq]; exact List.mem_cons_of_mem _ hp)⟩
  · rw [h]
    have hxa : ((x.toNat : Nat) : Int) = x := Int.toNat_of_nonneg hx0
    have hyb : ((y.toNat : Nat) : Int) = y := Int.toNat_of_nonneg hy0
    have ha : x.toNat < width := by omega
    have hb : y.toNat < height := by omega
    have hidx : (y * (width : Int) + x).toNat = y.toNat * width + x.toNat :=
      idx_toNat_decomp width x y hx0 hy0
    have hnewmask : setByte s.mask (y * (width : Int) + x).toNat 255
        (y.toNat * width + x.toNat) ≠ 0 := by
      rw [← hidx, setByte_self]
      omega
    refine ⟨fun hpc => absurd hpc (by simp), ?_, fun _ => ?_⟩
    · intro i hi
      replace hi : setByte s.mask (y * (width : Int) + x).toNat 255 i ≠ 0 := hi
      by_cases hji : i = (y * (width : Int) + x).toNat
      · subst hji
        refine ⟨x.toNat, y.toNat, hidx, ha, hb, ?_, ?_, ?_, ?_⟩
        · show min s.minX x ≤ _
          rw [hxa]
          exact min_le_right _ _
        · show _ ≤ max s.maxX x
          rw [hxa]
          exact le_max_right _ _
        · show min s.minY y ≤ _
          rw [hyb]
          exact min_le_right _ _
        · show _ ≤ max s.maxY y
          rw [hyb]
          exact le_max_right _ _
      · rw [setByte_other _ _ _ _ hji] at hi
        obtain ⟨a', b', hi', ha', hb', l1, l2, l3, l4⟩ := gb i hi
        exact ⟨a', b', hi', ha', hb',
          le_trans (min_le_left _ _) l1, le_trans l2 (le_max_left _ _),
          le_trans (min_le_left _ _) l3, le_trans l4 (le_max_left _ _)⟩
    · rcases Nat.eq_zero_or_pos s.pixelCount with hpc | hpc
      · obtain ⟨e1, e2, e3, e4, e5⟩ := g0 hpc
        have hxy : (x, y) = ((startX : Int), (startY : Int)) :=
          e5 _ (by rw [hq]; exact List.mem_cons_self _ _)
        have hx : x = (startX : Int) := congrArg Prod.fst hxy
        have hy : y = (startY : Int) := congrArg Prod.snd hxy
        have hminx : min s.minX x = x := by rw [e1, hx]; exact min_self _
        have hmaxx : max s.maxX x = x := by rw [e2, hx]; exact max_self _
        have hminy : min s.minY y = y := by rw [e3, hy]; exact min_self _
        have hmaxy : max s.maxY y = y := by rw [e4, hy]; exact max_self _
        exact ⟨⟨x.toNat, y.toNat, ha, hb, hnewmask, by rw [hminx]; exact hxa⟩,
          ⟨x.toNat, y.toNat, ha, hb, hnewmask, by rw [hmaxx]; exact hxa⟩,
          ⟨x.toNat, y.toNat, ha, hb, hnewmask, by rw [hminy]; exact hyb⟩,
          ⟨x.toNat, y.toNat, ha, hb, hnewmask, by rw [hmaxy]; exact hyb⟩⟩
      · obtain ⟨w1, w2, w3, w4⟩ := ga hpc
        refine ⟨?_, ?_, ?_, ?_⟩
        · by_cases hle : s.minX ≤ x
          · obtain ⟨a0, b0, ha0, hb0, hm0, he0⟩ := w1
            exact ⟨a0, b0, ha0, hb0,
              setByte_preserve_nonzero _ _ _ _ (by omega) hm0,
              he0.trans (min_eq_left hle).symm⟩
          · exact ⟨x.toNat, y.toNat, ha, hb, hnewmask,
              by rw [min_eq_right (le_of_not_le hle)]; exact hxa⟩
        · by_cases hle : x ≤ s.maxX
          · obtain ⟨a0, b0, ha0, hb0, hm0, he0⟩ := w2
            exact ⟨a0, b0, ha0, hb0,
              setByte_preserve_nonzero _ _ _ _ (by omega) hm0,
              he0.trans (max_eq_left hle).symm⟩
          · exact ⟨x.toNat, y.toNat, ha, hb, hnewmask,
              by rw [max_eq_right (le_of_not_le hle)]; exact hxa⟩
        · by_cases hle : s.minY ≤ y
          · obtain ⟨a0, b0, ha0, hb0, hm0, he0⟩ := w3
            exact ⟨a0, b0, ha0, hb0,
              setByte_preserve_nonzero _ _ _ _ (by omega) hm0,
              he0.trans (min_eq_left hle).symm⟩
          · exact ⟨x.toNat, y.toNat, ha, hb, hnewmask,
              by rw [min_eq_right (le_of_not_le hle)]; exact hyb⟩
        · by_cases hle : y ≤ s.maxY
          · obtain ⟨a0, b0, ha0, hb0, hm0, he0⟩ := w4
            exact ⟨a0, b0, ha0, hb0,
              setByte_preserve_nonzero _ _ _ _ (by omega) hm0,
              he0.trans (max_eq_left hle).symm⟩
          · exact ⟨x.toNat, y.toNat, ha, hb, hnewmask,
              by rw [max_eq_right (le_of_not_le hle)]; exact hyb⟩

theorem floodFillState_geom (data : Nat → Nat)
    (width height startX startY : Nat) (visited : Nat → Nat) (tolerance : Nat) :
    FFGeom width height startX startY
      (floodFillState data width height startX startY visited tolerance) := by
  apply ffLoop_invariant data width height _ _ _ tolerance
    (FFGeom width height startX startY)
    (fun s x y rest hq hs =>
      ffBody_geom data width height _ _ _ tolerance startX startY s x y rest hq hs)
  refine ⟨fun _ => ⟨rfl, rfl, rfl, rfl, ?_⟩, fun i hi => absurd rfl hi,
    fun hpc => absurd hpc (by simp [ffInit])⟩
  intro p hp
  simpa [ffInit] using hp

/-- C2.  `floodFill` returns `none` exactly when the final accepted pixel
count is below 100.  Otherwise it returns a region whose mask is the full
source-image-sized run mask — zero at every index outside the image, and
nonzero only at in-bounds pixels lying inside the accumulated box — and
whose bounding box is the min/max accumulation over the accepted pixels
(each side attained by an accepted pixel), with
`width = maxX − minX + 1` and `height = maxY − minY + 1`. -/
theorem floodFill_result_spec (data : Nat → Nat)
    (width height startX startY : Nat) (visited : Nat → Nat) (tolerance : Nat) :
    ((floodFill data width height startX startY visited tolerance).1 = none
      ↔ (floodFillState data width height startX startY visited
          tolerance).pixelCount < 100)
    ∧ (100 ≤ (floodFillState data width height startX startY visited
          tolerance).pixelCount →
      ∃ r, (floodFill data width height startX startY visited tolerance).1 = some r
        ∧ r.maskData
            = (floodFillState data width height startX startY visited tolerance).mask
        ∧ (∀ i, width * height ≤ i → r.maskData i = 0)
        ∧ (∀ i, r.maskData i ≠ 0 → ∃ a b, i = b * width + a ∧ a < width ∧ b < height
            ∧ (floodFillState data width height startX startY visited tolerance).minX
                ≤ (a : Int)
            ∧ (a : Int)
                ≤ (floodFillState data width height startX startY visited tolerance).maxX
            ∧ (floodFillState data width height startX startY visited tolerance).minY
                ≤ (b : Int)
            ∧ (b : Int)
                ≤ (floodFillState data width height startX startY visited tolerance).maxY)
        ∧ (∃ a b, a < width ∧ b < height ∧ r.maskData (b * width + a) ≠ 0
            ∧ (a : Int) = (floodFillState data width height startX startY visited
                tolerance).minX)
        ∧ (∃ a b, a < width ∧ b < height ∧ r.maskData (b * width + a) ≠ 0
            ∧ (a : Int) = (floodFillState data width height startX startY visited
                tolerance).maxX)
        ∧ (∃ a b, a < width ∧ b < height ∧ r.maskData (b * width + a) ≠ 0
            ∧ (b : Int) = (floodFillState data width height startX startY visited
                tolerance).minY)
        ∧ (∃ a b, a < width ∧ b < height ∧ r.maskData (b * width + a) ≠ 0
            ∧ (b : Int) = (floodFillState data width height startX startY visited
                tolerance).maxY)
        ∧ r.bounds =
          { x := (floodFillState data width height startX startY visited tolerance).minX
            y := (floodFillState data width height startX startY visited tolerance).minY
            width :=
              (floodFillState data width height startX startY visited tolerance).maxX
              - (floodFillState data width height startX startY visited tolerance).minX
              + 1
            height :=
              (floodFillState data width height startX startY visited tolerance).maxY
              - (floodFillState data width height startX startY visited tolerance).minY
              + 1 }) := by
  obtain ⟨-, gb, ga⟩ :=
    floodFillState_geom data width height startX startY visited tolerance
  constructor
  · simp only [floodFill]
    constructor
    · intro hnone
      by_contra hge
      rw [if_neg hge] at hnone
      exact absurd hnone (by simp)
    · intro hlt
      rw [if_pos hlt]
  · intro hge
    obtain ⟨w1, w2, w3, w4⟩ := ga (by omega)
    refine ⟨⟨(floodFillState data width height startX startY visited tolerance).mask,
      _⟩, ?_, rfl, ?_, gb, w1, w2, w3, w4, rfl⟩
    · simp only [floodFill]
      rw [if_neg (by omega)]
    · intro i hi
      by_contra hne
      obtain ⟨a, b, hi', ha, hb, -⟩ := gb i hne
      exact absurd hi' (by have := nat_idx_lt width height a b ha hb; omega)

/-! ### C7: determinism of the flood fill -/

/-- C7.  Two flood-fill runs from the same seed on the same unmodified
image with fresh (everywhere-zero) visited bitmaps produce the same
optional region — identical masks and identical bounding boxes.  The
generated string identifier is the one component excluded from the
embedding, as in the claim. -/
theorem floodFill_deterministic (data : Nat → Nat)
    (width height startX startY tolerance : Nat) (v1 v2 : Nat → Nat)
    (h1 : ∀ i, v1 i = 0) (h2 : ∀ i, v2 i = 0) :
    (floodFill data width height startX startY v1 tolerance).1
      = (floodFill data width height startX startY v2 tolerance).1 := by
  have hv : v1 = v2 := funext fun i => (h1 i).trans (h2 i).symm
  rw [hv]

/-! ### C4: the two flood-fill tolerances -/

/-- C4 counterexample.  The auto-segmentation tolerance (25) is not
numerically larger than the click-mode tolerance (30): the claim that
auto mode is looser fails on the code. -/
theorem autoTolerance_not_looser : ¬ (clickTolerance < autoTolerance) := by
  decide

/-- C4 amended.  Auto-segmentation uses one fixed tolerance (25) that is
distinct from, but numerically smaller (tighter) than, the click-mode
tolerance (30). -/
theorem autoTolerance_distinct_tighter :
    autoTolerance ≠ clickTolerance ∧ autoTolerance < clickTolerance := by
  decide

/-! ### The sampling grid: C5 and C10 -/

theorem axisLoop_eq (step : Nat) (hstep : 0 < step) :
    ∀ fuel bound y, bound - y < fuel →
      axisLoop fuel step bound y
        = some ((List.range ((bound - y + step - 1) / step)).map
            fun k => y + step * k) := by
  intro fuel
  induction fuel with
  | zero => intro bound y h; omega
  | succ fuel ih =>
    intro bound y h
    rw [axisLoop]
    by_cases hy : y < bound
    · rw [if_pos hy, ih bound (y + step) (by omega)]
      have hcnt : (bound - y + step - 1) / step
          = (bound - (y + step) + step - 1) / step + 1 := by
        rcases le_or_lt (bound - y) step with hd | hd
        · have e1 : bound - (y + step) + step - 1 = step - 1 := by omega
          have e2 : (step - 1) / step = 0 := Nat.div_eq_of_lt (by omega)
          have e3 : (bound - y + step - 1) / step = 1 := by
            have lo : 1 * step ≤ bound - y + step - 1 := by omega
            have hi : bound - y + step - 1 < (1 + 1) * step := by omega
            exact Nat.div_eq_of_lt_le lo hi
          rw [e1, e2, e3]
        · have e1 : bound - y + step - 1 = (bound - (y + step) + step - 1) + step := by
            omega
          rw [e1, Nat.add_div_right _ hstep]
      rw [hcnt, List.range_succ_eq_map, List.map_cons, List.map_map]
      simp only [Option.map_some']
      congr 2
      simp
      intro a ha
      ring
    · rw [if_neg hy]
      have e0 : bound - y = 0 := by omega
      rw [e0]
      have e2 : (0 + step - 1) / step = 0 := Nat.div_eq_of_lt (by omega)
      rw [e2]
      rfl

theorem axisLoop_start (step bound : Nat) (hstep : 0 < step) :
    axisLoop (bound + 1) step bound step
      = some ((List.range ((bound - 1) / step)).map fun k => step * (k + 1)) := by
  rw [axisLoop_eq step hstep (bound + 1) bound step (by omega)]
  have hcnt : (bound - step + step - 1) / step = (bound - 1) / step := by
    rcases le_or_lt step bound with hc | hc
    · congr 1
      omega
    · rw [Nat.div_eq_of_lt (by omega), Nat.div_eq_of_lt (by omega)]
  rw [hcnt]
  congr 1
  apply List.map_congr_left
  intro k hk
  ring

/-- The seed grid exactly as the spec words it: seeds at every `step`
pixels in both axes, starting at `(step, step)`, emitted in row-major
order (top-to-bottom, then left-to-right). -/
def sampleSeedsSpec (step width height : Nat) : List (Nat × Nat) :=
  (List.range ((height - 1) / step)).flatMap fun i =>
    (List.range ((width - 1) / step)).map fun j => (step * (j + 1), step * (i + 1))

theorem getSamplePoints_eq (width height count : Nat)
    (hstep : 0 < floorSqrt (width * height / count)) :
    getSamplePoints width height count
      = some (sampleSeedsSpec (floorSqrt (width * height / count)) width height) := by
  simp only [getSamplePoints]
  rw [axisLoop_start _ height hstep, axisLoop_start _ width hstep]
  simp only [sampleSeedsSpec]
  congr 1
  rw [List.flatMap_map]
  congr 1
  funext k
  rw [List.map_map]
  rfl

/-- Strict row-major order on seed coordinates: later rows first, and
left-to-right inside a row.  Coordinates are `(x, y)` pairs. -/
def rowMajorLt (p q : Nat × Nat) : Prop :=
  p.2 < q.2 ∨ (p.2 = q.2 ∧ p.1 < q.1)

instance (p q : Nat × Nat) : Decidable (rowMajorLt p q) := by
  unfold rowMajorLt
  infer_instance

/-- C5.  `getSamplePoints` computes the stride
`step = ⌊√(width * height / targetCount)⌋` and, whenever the stride is
positive, emits exactly the seeds at every `step` pixels in both axes
starting at `(step, step)` in row-major order; in particular on
`(100, 100, 25)` the seed list is strictly increasing in row-major order
and repeats no coordinate. -/
theorem sampleSeeds_spec :
    (∀ width height count : Nat, 0 < floorSqrt (width * height / count) →
      getSamplePoints width height count
        = some (sampleSeedsSpec (floorSqrt (width * height / count)) width height))
    ∧ List.Pairwise rowMajorLt ((getSamplePoints 100 100 25).getD [])
    ∧ ((getSamplePoints 100 100 25).getD []).Nodup := by
  refine ⟨fun width height count hstep =>
    getSamplePoints_eq width height count hstep, ?_, ?_⟩
  · decide
  · decide

/-- C5 witness at the concrete instance `(100, 100, 25)`. -/
theorem sampleSeeds_spec_witness :
    0 < floorSqrt (100 * 100 / 25)
    ∧ getSamplePoints 100 100 25
        = some (sampleSeedsSpec (floorSqrt (100 * 100 / 25)) 100 100) :=
  ⟨by decide, sampleSeeds_spec.1 100 100 25 (by decide)⟩

/-- C10.  The sampling loops terminate exactly when the stride is
positive: a positive stride (equivalently, `targetCount ≤ width * height`
for positive `targetCount`) makes `getSamplePoints` return a finite seed
list, while a zero stride makes the source's `y` loop increment by zero
and never terminate — the fuel-indexed axis loop fails for every fuel. -/
theorem getSamplePoints_termination :
    (∀ width height count : Nat, 0 < count →
      (0 < floorSqrt (width * height / count) ↔ count ≤ width * height))
    ∧ (∀ width height count : Nat, 0 < floorSqrt (width * height / count) →
      (getSamplePoints width height count).isSome = true)
    ∧ (∀ height : Nat, 0 < height → ∀ fuel, axisLoop fuel 0 height 0 = none) := by
  refine ⟨?_, ?_, ?_⟩
  · intro width height count hc
    rw [floorSqrt_eq_sqrt, Nat.sqrt_pos, Nat.div_pos_iff (by omega)]
  · intro width height count hstep
    rw [getSamplePoints_eq width height count hstep]
    rfl
  · intro height hh fuel
    induction fuel with
    | zero => rfl
    | succ fuel ih =>
      rw [axisLoop, if_pos hh]
      have e0 : 0 + 0 = 0 := rfl
      rw [e0, ih]
      rfl

/-- C10 witness: both directions at concrete instances — positive stride
on a 10 by 10 image with target 4, and a diverging zero-stride axis loop
with bound 3. -/
theorem getSamplePoints_termination_witness :
    0 < floorSqrt (10 * 10 / 4)
    ∧ (getSamplePoints 10 10 4).isSome = true
    ∧ axisLoop 5 0 3 0 = none :=
  ⟨(getSamplePoints_termination.1 10 10 4 (by decide)).mpr (by decide),
    getSamplePoints_termination.2.1 10 10 4 (by decide),
    getSamplePoints_termination.2.2 3 (by decide) 5⟩

/-! ### C8 and C9: handling of malformed external-service regions -/

/-- A response region whose byte length matches its declared 2 by 2 shape
but whose shape does not match a 3 by 3 image. -/
def mismatchSeg : APISegment :=
  { maskData := [7, 7, 7, 7], shapeW := 2, shapeH := 2, bounds := ⟨0, 0, 2, 2⟩ }

/-- A response region whose decoded byte length (3) does not match its
declared 2 by 2 shape. -/
def badLengthSeg : APISegment :=
  { maskData := [1, 2, 3], shapeW := 2, shapeH := 2, bounds := ⟨0, 0, 2, 2⟩ }

/-- A uniform gray test image: every buffer byte reads 128. -/
def uniformGray : Nat → Nat := fun _ => 128

/-- C8 counterexample.  A region whose declared shape is consistent with
its byte length but does not match of the image dimensions is NOT dropped:
`convertAPISegment` still returns a region. -/
theorem convertAPISegment_not_dropped :
    (convertAPISegment mismatchSeg 3 3).isSome = true := by rfl

/-- C8 amended.  On a shape/image dimension mismatch (with consistent
byte length) the region is returned — with the declared bounds and a
freshly allocated all-zero full-image mask into which the decoded bytes
are never copied — rather than dropped; only a warning is logged. -/
theorem convertAPISegment_dim_mismatch (seg : APISegment)
    (imageWidth imageHeight : Nat)
    (hlen : seg.maskData.length = seg.shapeW * seg.shapeH)
    (hdim : ¬(seg.shapeW = imageWidth ∧ seg.shapeH = imageHeight)) :
    ∃ r, convertAPISegment seg imageWidth imageHeight = some r
      ∧ r.bounds = seg.bounds ∧ ∀ i, r.maskData i = 0 := by
  simp only [convertAPISegment]
  rw [if_neg (by simp [hlen])]
  rw [if_neg hdim]
  exact ⟨_, rfl, rfl, fun i => rfl⟩

/-- C8 witness: the mismatched test region is returned with an all-zero
mask. -/
theorem convertAPISegment_dim_mismatch_witness :
    ((convertAPISegment mismatchSeg 3 3).getD
        { maskData := fun _ => 1, bounds := ⟨0, 0, 0, 0⟩ }).maskData 5 = 0 := by
  obtain ⟨r, hr, hb, hm⟩ :=
    convertAPISegment_dim_mismatch mismatchSeg 3 3 (by decide) (by decide)
  rw [hr, Option.getD_some]
  exact hm 5

/-- C9 counterexample.  When the service response holds exactly one
region and its byte length mismatches its declared shape, the call
returns the empty segment list as its result; it does not fall back to
the local algorithm, whose result on the same image and click point is a
one-region list. -/
theorem single_bad_segment_counterexample :
    onSegmentMessage (some [badLengthSeg]) uniformGray 15 15 (some (7, 7)) = some []
    ∧ Option.map List.length
        (onSegmentMessage none uniformGray 15 15 (some (7, 7))) = some 1 := by
  constructor
  · rfl
  · decide

/-- C9 amended.  A response whose only region has a mask byte-length
mismatch yields the empty region list (the region is dropped by the
`null` filter); the local fallback runs only when the request or
decoding throws, never because the response regions were all dropped. -/
theorem single_bad_segment_no_fallback (seg : APISegment) (data : Nat → Nat)
    (width height : Nat) (clickPoint : Option (Nat × Nat))
    (hlen : seg.maskData.length ≠ seg.shapeW * seg.shapeH) :
    onSegmentMessage (some [seg]) data width height clickPoint = some [] := by
  simp only [onSegmentMessage, handleSegmentResponse, List.map_cons, List.map_nil]
  rw [show convertAPISegment seg width height = none from by
    simp only [convertAPISegment]; rw [if_pos hlen]]
  rfl

/-- C9 witness for the amended statement at the concrete bad region. -/
theorem single_bad_segment_no_fallback_witness :
    onSegmentMessage (some [badLengthSeg]) uniformGray 4 4 none = some [] :=
  single_bad_segment_no_fallback badLengthSeg uniformGray 4 4 none (by decide)


/-! ### A bit-packed mirror of the loop state, for kernel evaluation

The byte maps of `FFState` are function-update chains, which concrete
kernel evaluation handles poorly on large images.  `FFStateP` packs the
two bitmaps into natural numbers (bit `i` set exactly when byte `i` is
nonzero) and adds a `done` flag so that the loop becomes a total step
function iterated `fuel` times; iteration then composes over fuel
(`ffLoopP_add`), which lets concrete runs be evaluated in bounded-depth
chunks.  The simulation theorem `relP_floodFillState` transports the
packed results back to the official embedding. -/

structure FFStateP where
  mask : Nat
  visited : Nat
  queue : List (Int × Int)
  minX : Int
  maxX : Int
  minY : Int
  maxY : Int
  pixelCount : Nat
  done : Bool
deriving DecidableEq, Repr

def ffBodyP (data : Nat → Nat) (width height tr tg tb tolerance : Nat)
    (s : FFStateP) (x y : Int) (rest : List (Int × Int)) : FFStateP × Bool :=
  let idx := (y * (width : Int) + x).toNat
  if x < 0 ∨ (width : Int) ≤ x ∨ y < 0 ∨ (height : Int) ≤ y then
    ({ s with queue := rest }, false)
  else if s.visited.testBit idx = true ∨ s.mask.testBit idx = true then
    ({ s with queue := rest }, false)
  else if tolerance < colorDiff data (idx * 4) tr tg tb then
    ({ s with queue := rest }, false)
  else
    let s' : FFStateP :=
      { s with
        mask := s.mask ||| 2 ^ idx
        visited := s.visited ||| 2 ^ idx
        queue := rest ++ [(x + 1, y), (x - 1, y), (x, y + 1), (x, y - 1)]
        minX := min s.minX x
        maxX := max s.maxX x
        minY := min s.minY y
        maxY := max s.maxY y
        pixelCount := s.pixelCount + 1 }
    (s', decide (width * height < 2 * s'.pixelCount))

/-- One total step of the packed loop: `done` states are fixed, an empty
queue or a safety-cap break sets `done`. -/
def stepP (data : Nat → Nat) (width height tr tg tb tolerance : Nat)
    (s : FFStateP) : FFStateP :=
  if s.done = true then s
  else
    match s.queue with
    | [] => { s with done := true }
    | (x, y) :: rest =>
      let r := ffBodyP data width height tr tg tb tolerance s x y rest
      if r.2 then { r.1 with done := true } else r.1

def ffLoopP (data : Nat → Nat) (width height tr tg tb tolerance : Nat) :
    Nat → FFStateP → FFStateP
  | 0, s => s
  | fuel + 1, s =>
    if s.done = true then s
    else ffLoopP data width height tr tg tb tolerance fuel
      (stepP data width height tr tg tb tolerance s)

def floodFillStateP (data : Nat → Nat) (width height startX startY : Nat)
    (visitedP : Nat) (tolerance : Nat) : FFStateP :=
  let startIdx := (startY * width + startX) * 4
  ffLoopP data width height
    (data startIdx) (data (startIdx + 1)) (data (startIdx + 2)) tolerance
    (floodFillFuel width height)
    { mask := 0
      visited := visitedP
      queue := [((startX : Int), (startY : Int))]
      minX := (startX : Int)
      maxX := (startX : Int)
      minY := (startY : Int)
      maxY := (startY : Int)
      pixelCount := 0
      done := false }

theorem stepP_done (data : Nat → Nat) (width height tr tg tb tolerance : Nat)
    (s : FFStateP) (h : s.done = true) :
    stepP data width height tr tg tb tolerance s = s := by
  rw [stepP, if_pos h]

theorem ffLoopP_done (data : Nat → Nat) (width height tr tg tb tolerance : Nat) :
    ∀ fuel (s : FFStateP), s.done = true →
      ffLoopP data width height tr tg tb tolerance fuel s = s := by
  intro fuel
  induction fuel with
  | zero => intro s _; rfl
  | succ fuel _ =>
    intro s h
    rw [ffLoopP, if_pos h]

theorem ffLoopP_add (data : Nat → Nat) (width height tr tg tb tolerance : Nat) :
    ∀ a b (s : FFStateP),
      ffLoopP data width height tr tg tb tolerance (a + b) s
        = ffLoopP data width height tr tg tb tolerance b
          (ffLoopP data width height tr tg tb tolerance a s) := by
  intro a
  induction a with
  | zero => intro b s; rw [Nat.zero_add]; rfl
  | succ a ih =>
    intro b s
    rw [Nat.succ_add, ffLoopP, ffLoopP]
    by_cases h : s.done = true
    · rw [if_pos h, if_pos h,
        ffLoopP_done data width height tr tg tb tolerance b s h]
    · rw [if_neg h, if_neg h, ih]

/-- Simulation relation between the official state and its packed
mirror (the `done` flag is the mirror's own control state). -/
def RelP (s : FFState) (t : FFStateP) : Prop :=
  (∀ i, s.mask i ≠ 0 ↔ t.mask.testBit i = true)
  ∧ (∀ i, s.visited i ≠ 0 ↔ t.visited.testBit i = true)
  ∧ s.queue = t.queue ∧ s.minX = t.minX ∧ s.maxX = t.maxX
  ∧ s.minY = t.minY ∧ s.maxY = t.maxY ∧ s.pixelCount = t.pixelCount

theorem setByte_rel (f : Nat → Nat) (n idx v : Nat) (hv : v ≠ 0)
    (h : ∀ i, f i ≠ 0 ↔ n.testBit i = true) :
    ∀ i, setByte f idx v i ≠ 0 ↔ (n ||| 2 ^ idx).testBit i = true := by
  intro i
  rw [Nat.testBit_or]
  by_cases hji : i = idx
  · subst hji
    rw [setByte_self, Nat.testBit_two_pow_self]
    simp [hv]
  · rw [setByte_other _ _ _ _ hji,
      Nat.testBit_two_pow_of_ne (fun he => hji he.symm)]
    simp [h i]

theorem ffBodyP_sim (data : Nat → Nat) (width height tr tg tb tolerance : Nat)
    (s : FFState) (t : FFStateP) (x y : Int) (rest : List (Int × Int))
    (hrel : RelP s t) :
    RelP (ffBody data width height tr tg tb tolerance s x y rest).1
        (ffBodyP data width height tr tg tb tolerance t x y rest).1
    ∧ (ffBody data width height tr tg tb tolerance s x y rest).2
        = (ffBodyP data width height tr tg tb tolerance t x y rest).2
    ∧ (ffBodyP data width height tr tg tb tolerance t x y rest).1.done = t.done := by
  obtain ⟨hm, hv, hq, h1, h2, h3, h4, h5⟩ := hrel
  simp only [ffBody, ffBodyP]
  by_cases c1 : x < 0 ∨ (width : Int) ≤ x ∨ y < 0 ∨ (height : Int) ≤ y
  · rw [if_pos c1, if_pos c1]
    exact ⟨⟨hm, hv, rfl, h1, h2, h3, h4, h5⟩, rfl, rfl⟩
  · rw [if_neg c1, if_neg c1]
    have hcond : (s.visited (y * (width : Int) + x).toNat ≠ 0
          ∨ s.mask (y * (width : Int) + x).toNat ≠ 0)
        ↔ (t.visited.testBit (y * (width : Int) + x).toNat = true
          ∨ t.mask.testBit (y * (width : Int) + x).toNat = true) := by
      rw [hm, hv]
    by_cases c2 : s.visited (y * (width : Int) + x).toNat ≠ 0
        ∨ s.mask (y * (width : Int) + x).toNat ≠ 0
    · rw [if_pos c2, if_pos (hcond.mp c2)]
      exact ⟨⟨hm, hv, rfl, h1, h2, h3, h4, h5⟩, rfl, rfl⟩
    · rw [if_neg c2, if_neg (fun hc => c2 (hcond.mpr hc))]
      by_cases c3 : tolerance
          < colorDiff data ((y * (width : Int) + x).toNat * 4) tr tg tb
      · rw [if_pos c3, if_pos c3]
        exact ⟨⟨hm, hv, rfl, h1, h2, h3, h4, h5⟩, rfl, rfl⟩
      · rw [if_neg c3, if_neg c3]
        push_neg at c2
        refine ⟨⟨setByte_rel s.mask t.mask _ 255 (by omega) hm,
          setByte_rel s.visited t.visited _ 1 (by omega) hv,
          ?_, ?_, ?_, ?_, ?_, ?_⟩, ?_, rfl⟩
        · show rest ++ _ = rest ++ _
          rfl
        · show min s.minX x = min t.minX x
          rw [h1]
        · show max s.maxX x = max t.maxX x
          rw [h2]
        · show min s.minY y = min t.minY y
          rw [h3]
        · show max s.maxY y = max t.maxY y
          rw [h4]
        · show s.pixelCount + 1 = t.pixelCount + 1
          rw [h5]
        · show decide (width * height < 2 * (s.pixelCount + 1))
              = decide (width * height < 2 * (t.pixelCount + 1))
          rw [h5]

theorem ffLoopP_sim (data : Nat → Nat) (width height tr tg tb tolerance : Nat) :
    ∀ fuel (s : FFState) (t : FFStateP), RelP s t → t.done = false →
      RelP (ffLoop data width height tr tg tb tolerance fuel s)
        (ffLoopP data width height tr tg tb tolerance fuel t) := by
  intro fuel
  induction fuel with
  | zero => intro s t h _; exact h
  | succ fuel ih =>
    intro s t h hdone
    have hq : s.queue = t.queue := h.2.2.1
    rw [ffLoopP, if_neg (by simp [hdone])]
    rcases hqt : t.queue with _ | ⟨⟨x, y⟩, rest⟩
    · rw [ffLoop_nil data width height tr tg tb tolerance fuel s (hq.trans hqt)]
      rw [show stepP data width height tr tg tb tolerance t = { t with done := true }
        from by rw [stepP, if_neg (by simp [hdone]), hqt]]
      rw [ffLoopP_done data width height tr tg tb tolerance fuel _ rfl]
      obtain ⟨hm, hv, hq', h1, h2, h3, h4, h5⟩ := h
      exact ⟨hm, hv, hq'.trans rfl, h1, h2, h3, h4, h5⟩
    · obtain ⟨hrel', hbrk, hbdone⟩ :=
        ffBodyP_sim data width height tr tg tb tolerance s t x y rest h
      rw [ffLoop_cons data width height tr tg tb tolerance fuel s x y rest
        (hq.trans hqt)]
      rw [show stepP data width height tr tg tb tolerance t
          = (if (ffBodyP data width height tr tg tb tolerance t x y rest).2 then
              { (ffBodyP data width height tr tg tb tolerance t x y rest).1
                with done := true }
            else (ffBodyP data width height tr tg tb tolerance t x y rest).1)
        from by rw [stepP, if_neg (by simp [hdone]), hqt]]
      rw [hbrk]
      by_cases hb : (ffBodyP data width height tr tg tb tolerance t x y rest).2 = true
      · rw [if_pos hb, if_pos hb]
        rw [ffLoopP_done data width height tr tg tb tolerance fuel _ rfl]
        obtain ⟨hm, hv, hq', h1, h2, h3, h4, h5⟩ := hrel'
        exact ⟨hm, hv, hq', h1, h2, h3, h4, h5⟩
      · rw [if_neg hb, if_neg hb]
        exact ih _ _ hrel' (hbdone.trans hdone)

/-- The packed run simulates the official run from a fresh visited
bitmap. -/
theorem relP_floodFillState (data : Nat → Nat)
    (width height startX startY tolerance : Nat) :
    RelP (floodFillState data width height startX startY (fun _ => 0) tolerance)
      (floodFillStateP data width height startX startY 0 tolerance) := by
  apply ffLoopP_sim
  · exact ⟨fun i => by simp [ffInit], fun i => by simp [ffInit], rfl, rfl, rfl,
      rfl, rfl, rfl⟩
  · rfl


/-! ### C3: the safety cap on a uniform 50 by 50 image -/

/-- Start state of the packed run for the C3 scenario: uniform gray
50 by 50 image, seed (25, 25), fresh visited bitmap, target color
(128, 128, 128), tolerance 30. -/
def c3init : FFStateP :=
  { mask := 0
    visited := 0
    queue := [((25 : Int), (25 : Int))]
    minX := 25
    maxX := 25
    minY := 25
    maxY := 25
    pixelCount := 0
    done := false }

/-- State of the packed 50 by 50 uniform-image run 600 steps after
`c3init`, recorded literally so that each chunk of the concrete
evaluation stays within the kernel's reduction depth. -/
def c3s1 : FFStateP :=
  { mask := 1891222039731267856610672850639233798245187811253027031111871150959421126221034606829619684641054407372484391976327296992120141293035334185345695139949538435860094055330839643793113095512261612348180382450857600479616259252811217842460926962814684788279304456328514975883502065666860413386226737010315952052520321507322988026840994481884261581173953610950385225298699491475777616634509585744600006800952280014729221781850109547338785473837993451813713921682922192030294208314375914546105009518332451121035813972181254144
    visited := 1891222039731267856610672850639233798245187811253027031111871150959421126221034606829619684641054407372484391976327296992120141293035334185345695139949538435860094055330839643793113095512261612348180382450857600479616259252811217842460926962814684788279304456328514975883502065666860413386226737010315952052520321507322988026840994481884261581173953610950385225298699491475777616634509585744600006800952280014729221781850109547338785473837993451813713921682922192030294208314375914546105009518332451121035813972181254144
    queue := [(32, 22), (32, 28), (30, 28), (31, 29), (31, 27), (32, 22), (30, 22), (31, 23),
      (31, 21), (31, 29), (29, 29), (30, 30), (30, 28), (31, 21), (29, 21), (30, 22),
      (30, 20), (30, 30), (28, 30), (29, 31), (29, 29), (30, 20), (28, 20), (29, 21),
      (29, 19), (29, 31), (27, 31), (28, 32), (28, 30), (29, 19), (27, 19), (28, 20),
      (28, 18), (28, 32), (26, 32), (27, 33), (27, 31), (28, 18), (26, 18), (27, 19),
      (27, 17), (27, 33), (25, 33), (26, 34), (26, 32), (27, 17), (25, 17), (26, 18),
      (26, 16), (17, 25), (15, 25), (16, 26), (16, 24), (18, 26), (16, 26), (17, 27),
      (17, 25), (18, 24), (16, 24), (17, 25), (17, 23), (19, 27), (17, 27), (18, 28),
      (18, 26), (19, 23), (17, 23), (18, 24), (18, 22), (20, 28), (18, 28), (19, 29),
      (19, 27), (20, 22), (18, 22), (19, 23), (19, 21), (21, 29), (19, 29), (20, 30),
      (20, 28), (21, 21), (19, 21), (20, 22), (20, 20), (22, 30), (20, 30), (21, 31),
      (21, 29), (22, 20), (20, 20), (21, 21), (21, 19), (23, 31), (21, 31), (22, 32),
      (22, 30), (23, 19), (21, 19), (22, 20), (22, 18), (24, 32), (22, 32), (23, 33),
      (23, 31), (24, 18), (22, 18), (23, 19), (23, 17), (25, 33), (23, 33), (24, 34),
      (24, 32), (25, 17), (23, 17), (24, 18), (24, 16), (26, 34), (24, 34), (25, 35),
      (25, 33), (26, 16), (24, 16), (25, 17), (25, 15), (36, 25), (34, 25), (35, 26),
      (35, 24), (35, 26), (33, 26), (34, 27), (34, 25), (35, 24), (33, 24), (34, 25),
      (34, 23), (34, 27), (32, 27), (33, 28), (33, 26), (34, 23), (32, 23), (33, 24),
      (33, 22), (33, 28), (31, 28), (32, 29), (32, 27)]
    minX := 16
    maxX := 35
    minY := 16
    maxY := 34
    pixelCount := 187
    done := false }

/-- State of the packed 50 by 50 uniform-image run 600 steps after
`c3s1`, recorded literally so that each chunk of the concrete
evaluation stays within the kernel's reduction depth. -/
def c3s2 : FFStateP :=
  { mask := 8097726877803326512188332329524027887113933135901445690090075190303143010557682784026195337823351797803650272672781663898782858957184401021983431349986743526633335716240871555122192064616773843183636422602261323058707125486758272623889283559763036839085404318441735250244963762901584886723164703447862006193129686876935854861044080081533748951499528274856842397878612685431832971701303228416370255188258002051791034704252069296410549565204944562763334457071789217163111390477914580526259991037314930428497371060341421327779679452920397972471997403863315820358664192
    visited := 8097726877803326512188332329524027887113933135901445690090075190303143010557682784026195337823351797803650272672781663898782858957184401021983431349986743526633335716240871555122192064616773843183636422602261323058707125486758272623889283559763036839085404318441735250244963762901584886723164703447862006193129686876935854861044080081533748951499528274856842397878612685431832971701303228416370255188258002051791034704252069296410549565204944562763334457071789217163111390477914580526259991037314930428497371060341421327779679452920397972471997403863315820358664192
    queue := [(19, 30), (20, 19), (18, 19), (19, 20), (19, 18), (21, 32), (19, 32), (20, 33),
      (20, 31), (21, 18), (19, 18), (20, 19), (20, 17), (22, 33), (20, 33), (21, 34),
      (21, 32), (22, 17), (20, 17), (21, 18), (21, 16), (23, 34), (21, 34), (22, 35),
      (22, 33), (23, 16), (21, 16), (22, 17), (22, 15), (24, 35), (22, 35), (23, 36),
      (23, 34), (24, 15), (22, 15), (23, 16), (23, 14), (25, 36), (23, 36), (24, 37),
      (24, 35), (25, 14), (23, 14), (24, 15), (24, 13), (26, 37), (24, 37), (25, 38),
      (25, 36), (26, 13), (24, 13), (25, 14), (25, 12), (39, 25), (37, 25), (38, 26),
      (38, 24), (38, 26), (36, 26), (37, 27), (37, 25), (38, 24), (36, 24), (37, 25),
      (37, 23), (37, 27), (35, 27), (36, 28), (36, 26), (37, 23), (35, 23), (36, 24),
      (36, 22), (36, 28), (34, 28), (35, 29), (35, 27), (36, 22), (34, 22), (35, 23),
      (35, 21), (35, 29), (33, 29), (34, 30), (34, 28), (35, 21), (33, 21), (34, 22),
      (34, 20), (34, 30), (32, 30), (33, 31), (33, 29), (34, 20), (32, 20), (33, 21),
      (33, 19), (33, 31), (31, 31), (32, 32), (32, 30), (33, 19), (31, 19), (32, 20),
      (32, 18), (32, 32), (30, 32), (31, 33), (31, 31), (32, 18), (30, 18), (31, 19),
      (31, 17), (31, 33), (29, 33), (30, 34), (30, 32), (31, 17), (29, 17), (30, 18),
      (30, 16), (30, 34), (28, 34), (29, 35), (29, 33), (30, 16), (28, 16), (29, 17),
      (29, 15), (29, 35), (27, 35), (28, 36), (28, 34), (29, 15), (27, 15), (28, 16),
      (28, 14), (28, 36), (26, 36), (27, 37), (27, 35), (28, 14), (26, 14), (27, 15),
      (27, 13), (27, 37), (25, 37), (26, 38), (26, 36), (27, 13), (25, 13), (26, 14),
      (26, 12), (13, 25), (11, 25), (12, 26), (12, 24), (14, 26), (12, 26), (13, 27),
      (13, 25), (14, 24), (12, 24), (13, 25), (13, 23), (15, 27), (13, 27), (14, 28),
      (14, 26), (15, 23), (13, 23), (14, 24), (14, 22), (16, 28), (14, 28), (15, 29),
      (15, 27), (16, 22), (14, 22), (15, 23), (15, 21), (17, 29), (15, 29), (16, 30),
      (16, 28), (17, 21), (15, 21), (16, 22), (16, 20), (18, 30), (16, 30), (17, 31),
      (17, 29), (18, 20), (16, 20), (17, 21), (17, 19), (19, 31), (17, 31), (18, 32),
      (18, 30), (19, 19), (17, 19), (18, 20), (18, 18), (20, 32), (18, 32), (19, 33),
      (19, 31)]
    minX := 12
    maxX := 38
    minY := 13
    maxY := 37
    pixelCount := 352
    done := false }

/-- State of the packed 50 by 50 uniform-image run 600 steps after
`c3s2`, recorded literally so that each chunk of the concrete
evaluation stays within the kernel's reduction depth. -/
def c3s3 : FFStateP :=
  { mask := 11557462002507834097939728974000772725880959639807413501473185502499245676431221863240172821645601186739094141200659050320539847551328737774097014394422627989296219138267747887982611619076925519683337196996388035324006923720629272471742611183443733000927672467627599733892077469025321367693557880220526867475577325364193713957251101587866235491224583907876007861396611876723718299315444351057695323425986469244274238291962295898271818981933127724027136413169671570803191931525738772949045999563173311496059982063022113583342513644902918961426599728121690244831777300194381862229483505828013769177792433499406336
    visited := 11557462002507834097939728974000772725880959639807413501473185502499245676431221863240172821645601186739094141200659050320539847551328737774097014394422627989296219138267747887982611619076925519683337196996388035324006923720629272471742611183443733000927672467627599733892077469025321367693557880220526867475577325364193713957251101587866235491224583907876007861396611876723718299315444351057695323425986469244274238291962295898271818981933127724027136413169671570803191931525738772949045999563173311496059982063022113583342513644902918961426599728121690244831777300194381862229483505828013769177792433499406336
    queue := [(26, 10), (11, 25), (9, 25), (10, 26), (10, 24), (12, 26), (10, 26), (11, 27),
      (11, 25), (12, 24), (10, 24), (11, 25), (11, 23), (13, 27), (11, 27), (12, 28),
      (12, 26), (13, 23), (11, 23), (12, 24), (12, 22), (14, 28), (12, 28), (13, 29),
      (13, 27), (14, 22), (12, 22), (13, 23), (13, 21), (15, 29), (13, 29), (14, 30),
      (14, 28), (15, 21), (13, 21), (14, 22), (14, 20), (16, 30), (14, 30), (15, 31),
      (15, 29), (16, 20), (14, 20), (15, 21), (15, 19), (17, 31), (15, 31), (16, 32),
      (16, 30), (17, 19), (15, 19), (16, 20), (16, 18), (18, 32), (16, 32), (17, 33),
      (17, 31), (18, 18), (16, 18), (17, 19), (17, 17), (19, 33), (17, 33), (18, 34),
      (18, 32), (19, 17), (17, 17), (18, 18), (18, 16), (20, 34), (18, 34), (19, 35),
      (19, 33), (20, 16), (18, 16), (19, 17), (19, 15), (21, 35), (19, 35), (20, 36),
      (20, 34), (21, 15), (19, 15), (20, 16), (20, 14), (22, 36), (20, 36), (21, 37),
      (21, 35), (22, 14), (20, 14), (21, 15), (21, 13), (23, 37), (21, 37), (22, 38),
      (22, 36), (23, 13), (21, 13), (22, 14), (22, 12), (24, 38), (22, 38), (23, 39),
      (23, 37), (24, 12), (22, 12), (23, 13), (23, 11), (25, 39), (23, 39), (24, 40),
      (24, 38), (25, 11), (23, 11), (24, 12), (24, 10), (26, 40), (24, 40), (25, 41),
      (25, 39), (26, 10), (24, 10), (25, 11), (25, 9), (42, 25), (40, 25), (41, 26),
      (41, 24), (41, 26), (39, 26), (40, 27), (40, 25), (41, 24), (39, 24), (40, 25),
      (40, 23), (40, 27), (38, 27), (39, 28), (39, 26), (40, 23), (38, 23), (39, 24),
      (39, 22), (39, 28), (37, 28), (38, 29), (38, 27), (39, 22), (37, 22), (38, 23),
      (38, 21), (38, 29), (36, 29), (37, 30), (37, 28), (38, 21), (36, 21), (37, 22),
      (37, 20), (37, 30), (35, 30), (36, 31), (36, 29), (37, 20), (35, 20), (36, 21),
      (36, 19), (36, 31), (34, 31), (35, 32), (35, 30), (36, 19), (34, 19), (35, 20),
      (35, 18), (35, 32), (33, 32), (34, 33), (34, 31), (35, 18), (33, 18), (34, 19),
      (34, 17), (34, 33), (32, 33), (33, 34), (33, 32), (34, 17), (32, 17), (33, 18),
      (33, 16), (33, 34), (31, 34), (32, 35), (32, 33), (33, 16), (31, 16), (32, 17),
      (32, 15), (32, 35), (30, 35), (31, 36), (31, 34), (32, 15), (30, 15), (31, 16),
      (31, 14), (31, 36), (29, 36), (30, 37), (30, 35), (31, 14), (29, 14), (30, 15),
      (30, 13), (30, 37), (28, 37), (29, 38), (29, 36), (30, 13), (28, 13), (29, 14),
      (29, 12), (29, 38), (27, 38), (28, 39), (28, 37), (29, 12), (27, 12), (28, 13),
      (28, 11), (28, 39), (26, 39), (27, 40), (27, 38), (28, 11), (26, 11), (27, 12),
      (27, 10), (27, 40), (25, 40), (26, 41), (26, 39)]
    minX := 10
    maxX := 41
    minY := 10
    maxY := 40
    pixelCount := 511
    done := false }

/-- State of the packed 50 by 50 uniform-image run 600 steps after
`c3s3`, recorded literally so that each chunk of the concrete
evaluation stays within the kernel's reduction depth. -/
def c3s4 : FFStateP :=
  { mask := 14650823644594010034607008094366588571263067847785483805134955871454236719582364210218911083764310420500474386857299221573382542066227457431738270681118705250812215702779748533591835008192010765486387453114522507797608794841071718315223162459460402727320591335945188746532240469035625736856805989714731656663685440320260845208850775676430834448996557321431172667772489249531476064853374862009812085433812268197175072967534400617474322665152190595522013199012506961567663159395834254742303512396931722524110265440307708652881679475540352424315098738832546264571743135005415547859102234286594517800213982885567954058794266641462092121749061632
    visited := 14650823644594010034607008094366588571263067847785483805134955871454236719582364210218911083764310420500474386857299221573382542066227457431738270681118705250812215702779748533591835008192010765486387453114522507797608794841071718315223162459460402727320591335945188746532240469035625736856805989714731656663685440320260845208850775676430834448996557321431172667772489249531476064853374862009812085433812268197175072967534400617474322665152190595522013199012506961567663159395834254742303512396931722524110265440307708652881679475540352424315098738832546264571743135005415547859102234286594517800213982885567954058794266641462092121749061632
    queue := [(19, 35), (20, 14), (18, 14), (19, 15), (19, 13), (21, 37), (19, 37), (20, 38),
      (20, 36), (21, 13), (19, 13), (20, 14), (20, 12), (22, 38), (20, 38), (21, 39),
      (21, 37), (22, 12), (20, 12), (21, 13), (21, 11), (23, 39), (21, 39), (22, 40),
      (22, 38), (23, 11), (21, 11), (22, 12), (22, 10), (24, 40), (22, 40), (23, 41),
      (23, 39), (24, 10), (22, 10), (23, 11), (23, 9), (25, 41), (23, 41), (24, 42),
      (24, 40), (25, 9), (23, 9), (24, 10), (24, 8), (26, 42), (24, 42), (25, 43),
      (25, 41), (26, 8), (24, 8), (25, 9), (25, 7), (44, 25), (42, 25), (43, 26),
      (43, 24), (43, 26), (41, 26), (42, 27), (42, 25), (43, 24), (41, 24), (42, 25),
      (42, 23), (42, 27), (40, 27), (41, 28), (41, 26), (42, 23), (40, 23), (41, 24),
      (41, 22), (41, 28), (39, 28), (40, 29), (40, 27), (41, 22), (39, 22), (40, 23),
      (40, 21), (40, 29), (38, 29), (39, 30), (39, 28), (40, 21), (38, 21), (39, 22),
      (39, 20), (39, 30), (37, 30), (38, 31), (38, 29), (39, 20), (37, 20), (38, 21),
      (38, 19), (38, 31), (36, 31), (37, 32), (37, 30), (38, 19), (36, 19), (37, 20),
      (37, 18), (37, 32), (35, 32), (36, 33), (36, 31), (37, 18), (35, 18), (36, 19),
      (36, 17), (36, 33), (34, 33), (35, 34), (35, 32), (36, 17), (34, 17), (35, 18),
      (35, 16), (35, 34), (33, 34), (34, 35), (34, 33), (35, 16), (33, 16), (34, 17),
      (34, 15), (34, 35), (32, 35), (33, 36), (33, 34), (34, 15), (32, 15), (33, 16),
      (33, 14), (33, 36), (31, 36), (32, 37), (32, 35), (33, 14), (31, 14), (32, 15),
      (32, 13), (32, 37), (30, 37), (31, 38), (31, 36), (32, 13), (30, 13), (31, 14),
      (31, 12), (31, 38), (29, 38), (30, 39), (30, 37), (31, 12), (29, 12), (30, 13),
      (30, 11), (30, 39), (28, 39), (29, 40), (29, 38), (30, 11), (28, 11), (29, 12),
      (29, 10), (29, 40), (27, 40), (28, 41), (28, 39), (29, 10), (27, 10), (28, 11),
      (28, 9), (28, 41), (26, 41), (27, 42), (27, 40), (28, 9), (26, 9), (27, 10),
      (27, 8), (27, 42), (25, 42), (26, 43), (26, 41), (27, 8), (25, 8), (26, 9),
      (26, 7), (8, 25), (6, 25), (7, 26), (7, 24), (9, 26), (7, 26), (8, 27),
      (8, 25), (9, 24), (7, 24), (8, 25), (8, 23), (10, 27), (8, 27), (9, 28),
      (9, 26), (10, 23), (8, 23), (9, 24), (9, 22), (11, 28), (9, 28), (10, 29),
      (10, 27), (11, 22), (9, 22), (10, 23), (10, 21), (12, 29), (10, 29), (11, 30),
      (11, 28), (12, 21), (10, 21), (11, 22), (11, 20), (13, 30), (11, 30), (12, 31),
      (12, 29), (13, 20), (11, 20), (12, 21), (12, 19), (14, 31), (12, 31), (13, 32),
      (13, 30), (14, 19), (12, 19), (13, 20), (13, 18), (15, 32), (13, 32), (14, 33),
      (14, 31), (15, 18), (13, 18), (14, 19), (14, 17), (16, 33), (14, 33), (15, 34),
      (15, 32), (16, 17), (14, 17), (15, 18), (15, 16), (17, 34), (15, 34), (16, 35),
      (16, 33), (17, 16), (15, 16), (16, 17), (16, 15), (18, 35), (16, 35), (17, 36),
      (17, 34), (18, 15), (16, 15), (17, 16), (17, 14), (19, 36), (17, 36), (18, 37),
      (18, 35), (19, 14), (17, 14), (18, 15), (18, 13), (20, 37), (18, 37), (19, 38),
      (19, 36)]
    minX := 7
    maxX := 43
    minY := 8
    maxY := 42
    pixelCount := 672
    done := false }

/-- State of the packed 50 by 50 uniform-image run 600 steps after
`c3s4`, recorded literally so that each chunk of the concrete
evaluation stays within the kernel's reduction depth. -/
def c3s5 : FFStateP :=
  { mask := 18572125386907532288615033439083344748453018308063855036936624158076282414867190335737378193463524497728044557726801733712650088359314952303908053714273247852677680195488962038506191926023943005053981836324048745873627655844647294917972876162642545870202720770872986776018930157710371415067820618033729640036896623763802876669756850520849155482344466230864097505854647696871637254355706252996998987917317670558600460053640360836011898272719724460104022740913784205508512042845690488800405452720537758247541738728497629900275303082923437241152127901849572771859123356264513134905375561087048091578530520781074418515602506157235053837194665093450592603827942886503440449536
    visited := 18572125386907532288615033439083344748453018308063855036936624158076282414867190335737378193463524497728044557726801733712650088359314952303908053714273247852677680195488962038506191926023943005053981836324048745873627655844647294917972876162642545870202720770872986776018930157710371415067820618033729640036896623763802876669756850520849155482344466230864097505854647696871637254355706252996998987917317670558600460053640360836011898272719724460104022740913784205508512042845690488800405452720537758247541738728497629900275303082923437241152127901849572771859123356264513134905375561087048091578530520781074418515602506157235053837194665093450592603827942886503440449536
    queue := [(20, 38), (21, 11), (19, 11), (20, 12), (20, 10), (22, 40), (20, 40), (21, 41),
      (21, 39), (22, 10), (20, 10), (21, 11), (21, 9), (23, 41), (21, 41), (22, 42),
      (22, 40), (23, 9), (21, 9), (22, 10), (22, 8), (24, 42), (22, 42), (23, 43),
      (23, 41), (24, 8), (22, 8), (23, 9), (23, 7), (25, 43), (23, 43), (24, 44),
      (24, 42), (25, 7), (23, 7), (24, 8), (24, 6), (26, 44), (24, 44), (25, 45),
      (25, 43), (26, 6), (24, 6), (25, 7), (25, 5), (46, 25), (44, 25), (45, 26),
      (45, 24), (45, 26), (43, 26), (44, 27), (44, 25), (45, 24), (43, 24), (44, 25),
      (44, 23), (44, 27), (42, 27), (43, 28), (43, 26), (44, 23), (42, 23), (43, 24),
      (43, 22), (43, 28), (41, 28), (42, 29), (42, 27), (43, 22), (41, 22), (42, 23),
      (42, 21), (42, 29), (40, 29), (41, 30), (41, 28), (42, 21), (40, 21), (41, 22),
      (41, 20), (41, 30), (39, 30), (40, 31), (40, 29), (41, 20), (39, 20), (40, 21),
      (40, 19), (40, 31), (38, 31), (39, 32), (39, 30), (40, 19), (38, 19), (39, 20),
      (39, 18), (39, 32), (37, 32), (38, 33), (38, 31), (39, 18), (37, 18), (38, 19),
      (38, 17), (38, 33), (36, 33), (37, 34), (37, 32), (38, 17), (36, 17), (37, 18),
      (37, 16), (37, 34), (35, 34), (36, 35), (36, 33), (37, 16), (35, 16), (36, 17),
      (36, 15), (36, 35), (34, 35), (35, 36), (35, 34), (36, 15), (34, 15), (35, 16),
      (35, 14), (35, 36), (33, 36), (34, 37), (34, 35), (35, 14), (33, 14), (34, 15),
      (34, 13), (34, 37), (32, 37), (33, 38), (33, 36), (34, 13), (32, 13), (33, 14),
      (33, 12), (33, 38), (31, 38), (32, 39), (32, 37), (33, 12), (31, 12), (32, 13),
      (32, 11), (32, 39), (30, 39), (31, 40), (31, 38), (32, 11), (30, 11), (31, 12),
      (31, 10), (31, 40), (29, 40), (30, 41), (30, 39), (31, 10), (29, 10), (30, 11),
      (30, 9), (30, 41), (28, 41), (29, 42), (29, 40), (30, 9), (28, 9), (29, 10),
      (29, 8), (29, 42), (27, 42), (28, 43), (28, 41), (29, 8), (27, 8), (28, 9),
      (28, 7), (28, 43), (26, 43), (27, 44), (27, 42), (28, 7), (26, 7), (27, 8),
      (27, 6), (27, 44), (25, 44), (26, 45), (26, 43), (27, 6), (25, 6), (26, 7),
      (26, 5), (6, 25), (4, 25), (5, 26), (5, 24), (7, 26), (5, 26), (6, 27),
      (6, 25), (7, 24), (5, 24), (6, 25), (6, 23), (8, 27), (6, 27), (7, 28),
      (7, 26), (8, 23), (6, 23), (7, 24), (7, 22), (9, 28), (7, 28), (8, 29),
      (8, 27), (9, 22), (7, 22), (8, 23), (8, 21), (10, 29), (8, 29), (9, 30),
      (9, 28), (10, 21), (8, 21), (9, 22), (9, 20), (11, 30), (9, 30), (10, 31),
      (10, 29), (11, 20), (9, 20), (10, 21), (10, 19), (12, 31), (10, 31), (11, 32),
      (11, 30), (12, 19), (10, 19), (11, 20), (11, 18), (13, 32), (11, 32), (12, 33),
      (12, 31), (13, 18), (11, 18), (12, 19), (12, 17), (14, 33), (12, 33), (13, 34),
      (13, 32), (14, 17), (12, 17), (13, 18), (13, 16), (15, 34), (13, 34), (14, 35),
      (14, 33), (15, 16), (13, 16), (14, 17), (14, 15), (16, 35), (14, 35), (15, 36),
      (15, 34), (16, 15), (14, 15), (15, 16), (15, 14), (17, 36), (15, 36), (16, 37),
      (16, 35), (17, 14), (15, 14), (16, 15), (16, 13), (18, 37), (16, 37), (17, 38),
      (17, 36), (18, 13), (16, 13), (17, 14), (17, 12), (19, 38), (17, 38), (18, 39),
      (18, 37), (19, 12), (17, 12), (18, 13), (18, 11), (20, 39), (18, 39), (19, 40),
      (19, 38), (20, 11), (18, 11), (19, 12), (19, 10), (21, 40), (19, 40), (20, 41),
      (20, 39)]
    minX := 5
    maxX := 45
    minY := 6
    maxY := 44
    pixelCount := 830
    done := false }

/-- State of the packed 50 by 50 uniform-image run 600 steps after
`c3s5`, recorded literally so that each chunk of the concrete
evaluation stays within the kernel's reduction depth. -/
def c3s6 : FFStateP :=
  { mask := 23542965894227270511757853855014789093653583751938180892749051339135355583015545993221412913338623267020777639703381747573521778767371795765188595067298806788671907867582282741451623437262357843279885625474211390294567358385431791372576676187287266927760660767618636460650755434766931736450396071669390137463697479273491268885064185887451249083140460955782863819531243774516092515986783988135515129763759243606036434268866069925766978159836601443809166088887642464025397935701402808508177414005017459404380774604304594618821872332708880909798878259504232542616696252040700150159712451285066502739872154656100411046024783329060588118560490646876711644420547779862801076851539819326991124217739423514624
    visited := 23542965894227270511757853855014789093653583751938180892749051339135355583015545993221412913338623267020777639703381747573521778767371795765188595067298806788671907867582282741451623437262357843279885625474211390294567358385431791372576676187287266927760660767618636460650755434766931736450396071669390137463697479273491268885064185887451249083140460955782863819531243774516092515986783988135515129763759243606036434268866069925766978159836601443809166088887642464025397935701402808508177414005017459404380774604304594618821872332708880909798878259504232542616696252040700150159712451285066502739872154656100411046024783329060588118560490646876711644420547779862801076851539819326991124217739423514624
    queue := [(13, 33), (14, 16), (12, 16), (13, 17), (13, 15), (15, 35), (13, 35), (14, 36),
      (14, 34), (15, 15), (13, 15), (14, 16), (14, 14), (16, 36), (14, 36), (15, 37),
      (15, 35), (16, 14), (14, 14), (15, 15), (15, 13), (17, 37), (15, 37), (16, 38),
      (16, 36), (17, 13), (15, 13), (16, 14), (16, 12), (18, 38), (16, 38), (17, 39),
      (17, 37), (18, 12), (16, 12), (17, 13), (17, 11), (19, 39), (17, 39), (18, 40),
      (18, 38), (19, 11), (17, 11), (18, 12), (18, 10), (20, 40), (18, 40), (19, 41),
      (19, 39), (20, 10), (18, 10), (19, 11), (19, 9), (21, 41), (19, 41), (20, 42),
      (20, 40), (21, 9), (19, 9), (20, 10), (20, 8), (22, 42), (20, 42), (21, 43),
      (21, 41), (22, 8), (20, 8), (21, 9), (21, 7), (23, 43), (21, 43), (22, 44),
      (22, 42), (23, 7), (21, 7), (22, 8), (22, 6), (24, 44), (22, 44), (23, 45),
      (23, 43), (24, 6), (22, 6), (23, 7), (23, 5), (25, 45), (23, 45), (24, 46),
      (24, 44), (25, 5), (23, 5), (24, 6), (24, 4), (26, 46), (24, 46), (25, 47),
      (25, 45), (26, 4), (24, 4), (25, 5), (25, 3), (48, 25), (46, 25), (47, 26),
      (47, 24), (47, 26), (45, 26), (46, 27), (46, 25), (47, 24), (45, 24), (46, 25),
      (46, 23), (46, 27), (44, 27), (45, 28), (45, 26), (46, 23), (44, 23), (45, 24),
      (45, 22), (45, 28), (43, 28), (44, 29), (44, 27), (45, 22), (43, 22), (44, 23),
      (44, 21), (44, 29), (42, 29), (43, 30), (43, 28), (44, 21), (42, 21), (43, 22),
      (43, 20), (43, 30), (41, 30), (42, 31), (42, 29), (43, 20), (41, 20), (42, 21),
      (42, 19), (42, 31), (40, 31), (41, 32), (41, 30), (42, 19), (40, 19), (41, 20),
      (41, 18), (41, 32), (39, 32), (40, 33), (40, 31), (41, 18), (39, 18), (40, 19),
      (40, 17), (40, 33), (38, 33), (39, 34), (39, 32), (40, 17), (38, 17), (39, 18),
      (39, 16), (39, 34), (37, 34), (38, 35), (38, 33), (39, 16), (37, 16), (38, 17),
      (38, 15), (38, 35), (36, 35), (37, 36), (37, 34), (38, 15), (36, 15), (37, 16),
      (37, 14), (37, 36), (35, 36), (36, 37), (36, 35), (37, 14), (35, 14), (36, 15),
      (36, 13), (36, 37), (34, 37), (35, 38), (35, 36), (36, 13), (34, 13), (35, 14),
      (35, 12), (35, 38), (33, 38), (34, 39), (34, 37), (35, 12), (33, 12), (34, 13),
      (34, 11), (34, 39), (32, 39), (33, 40), (33, 38), (34, 11), (32, 11), (33, 12),
      (33, 10), (33, 40), (31, 40), (32, 41), (32, 39), (33, 10), (31, 10), (32, 11),
      (32, 9), (32, 41), (30, 41), (31, 42), (31, 40), (32, 9), (30, 9), (31, 10),
      (31, 8), (31, 42), (29, 42), (30, 43), (30, 41), (31, 8), (29, 8), (30, 9),
      (30, 7), (30, 43), (28, 43), (29, 44), (29, 42), (30, 7), (28, 7), (29, 8),
      (29, 6), (29, 44), (27, 44), (28, 45), (28, 43), (29, 6), (27, 6), (28, 7),
      (28, 5), (28, 45), (26, 45), (27, 46), (27, 44), (28, 5), (26, 5), (27, 6),
      (27, 4), (27, 46), (25, 46), (26, 47), (26, 45), (27, 4), (25, 4), (26, 5),
      (26, 3), (4, 25), (2, 25), (3, 26), (3, 24), (5, 26), (3, 26), (4, 27),
      (4, 25), (5, 24), (3, 24), (4, 25), (4, 23), (6, 27), (4, 27), (5, 28),
      (5, 26), (6, 23), (4, 23), (5, 24), (5, 22), (7, 28), (5, 28), (6, 29),
      (6, 27), (7, 22), (5, 22), (6, 23), (6, 21), (8, 29), (6, 29), (7, 30),
      (7, 28), (8, 21), (6, 21), (7, 22), (7, 20), (9, 30), (7, 30), (8, 31),
      (8, 29), (9, 20), (7, 20), (8, 21), (8, 19), (10, 31), (8, 31), (9, 32),
      (9, 30), (10, 19), (8, 19), (9, 20), (9, 18), (11, 32), (9, 32), (10, 33),
      (10, 31), (11, 18), (9, 18), (10, 19), (10, 17), (12, 33), (10, 33), (11, 34),
      (11, 32), (12, 17), (10, 17), (11, 18), (11, 16), (13, 34), (11, 34), (12, 35),
      (12, 33), (13, 16), (11, 16), (12, 17), (12, 15), (14, 35), (12, 35), (13, 36),
      (13, 34)]
    minX := 3
    maxX := 47
    minY := 4
    maxY := 46
    pixelCount := 988
    done := false }

/-- State of the packed 50 by 50 uniform-image run 600 steps after
`c3s6`, recorded literally so that each chunk of the concrete
evaluation stays within the kernel's reduction depth. -/
def c3s7 : FFStateP :=
  { mask := 9948084948989986507704014511354568588579898508249165496629925843766595503193039541897293634704885979287903390008163215215443813458996516495660297848950594021160107150979877655944660782730211817669803016746657769299885212487912178171260131229031815734573103430382285000944615157255202240448695469801451289152052871846697149604130273153902448384292612883987064739509524686788600664224499208101700839349429261997365161278791455992733875596670175210063389257478160097486986699276529916795038884262016891622887648628736604119068497865561439852644231845054621758346307406922537956712380793176757134596810036303352763925549030270251695595464267463404675345648147667296927571129553507891857801292393646253997814497091928267662218301014016
    visited := 9948084948989986507704014511354568588579898508249165496629925843766595503193039541897293634704885979287903390008163215215443813458996516495660297848950594021160107150979877655944660782730211817669803016746657769299885212487912178171260131229031815734573103430382285000944615157255202240448695469801451289152052871846697149604130273153902448384292612883987064739509524686788600664224499208101700839349429261997365161278791455992733875596670175210063389257478160097486986699276529916795038884262016891622887648628736604119068497865561439852644231845054621758346307406922537956712380793176757134596810036303352763925549030270251695595464267463404675345648147667296927571129553507891857801292393646253997814497091928267662218301014016
    queue := [(30, 6), (30, 44), (28, 44), (29, 45), (29, 43), (30, 6), (28, 6), (29, 7),
      (29, 5), (29, 45), (27, 45), (28, 46), (28, 44), (29, 5), (27, 5), (28, 6),
      (28, 4), (28, 46), (26, 46), (27, 47), (27, 45), (28, 4), (26, 4), (27, 5),
      (27, 3), (27, 47), (25, 47), (26, 48), (26, 46), (27, 3), (25, 3), (26, 4),
      (26, 2), (3, 25), (1, 25), (2, 26), (2, 24), (4, 26), (2, 26), (3, 27),
      (3, 25), (4, 24), (2, 24), (3, 25), (3, 23), (5, 27), (3, 27), (4, 28),
      (4, 26), (5, 23), (3, 23), (4, 24), (4, 22), (6, 28), (4, 28), (5, 29),
      (5, 27), (6, 22), (4, 22), (5, 23), (5, 21), (7, 29), (5, 29), (6, 30),
      (6, 28), (7, 21), (5, 21), (6, 22), (6, 20), (8, 30), (6, 30), (7, 31),
      (7, 29), (8, 20), (6, 20), (7, 21), (7, 19), (9, 31), (7, 31), (8, 32),
      (8, 30), (9, 19), (7, 19), (8, 20), (8, 18), (10, 32), (8, 32), (9, 33),
      (9, 31), (10, 18), (8, 18), (9, 19), (9, 17), (11, 33), (9, 33), (10, 34),
      (10, 32), (11, 17), (9, 17), (10, 18), (10, 16), (12, 34), (10, 34), (11, 35),
      (11, 33), (12, 16), (10, 16), (11, 17), (11, 15), (13, 35), (11, 35), (12, 36),
      (12, 34), (13, 15), (11, 15), (12, 16), (12, 14), (14, 36), (12, 36), (13, 37),
      (13, 35), (14, 14), (12, 14), (13, 15), (13, 13), (15, 37), (13, 37), (14, 38),
      (14, 36), (15, 13), (13, 13), (14, 14), (14, 12), (16, 38), (14, 38), (15, 39),
      (15, 37), (16, 12), (14, 12), (15, 13), (15, 11), (17, 39), (15, 39), (16, 40),
      (16, 38), (17, 11), (15, 11), (16, 12), (16, 10), (18, 40), (16, 40), (17, 41),
      (17, 39), (18, 10), (16, 10), (17, 11), (17, 9), (19, 41), (17, 41), (18, 42),
      (18, 40), (19, 9), (17, 9), (18, 10), (18, 8), (20, 42), (18, 42), (19, 43),
      (19, 41), (20, 8), (18, 8), (19, 9), (19, 7), (21, 43), (19, 43), (20, 44),
      (20, 42), (21, 7), (19, 7), (20, 8), (20, 6), (22, 44), (20, 44), (21, 45),
      (21, 43), (22, 6), (20, 6), (21, 7), (21, 5), (23, 45), (21, 45), (22, 46),
      (22, 44), (23, 5), (21, 5), (22, 6), (22, 4), (24, 46), (22, 46), (23, 47),
      (23, 45), (24, 4), (22, 4), (23, 5), (23, 3), (25, 47), (23, 47), (24, 48),
      (24, 46), (25, 3), (23, 3), (24, 4), (24, 2), (26, 48), (24, 48), (25, 49),
      (25, 47), (26, 2), (24, 2), (25, 3), (25, 1), (50, 25), (48, 25), (49, 26),
      (49, 24), (49, 26), (47, 26), (48, 27), (48, 25), (49, 24), (47, 24), (48, 25),
      (48, 23), (48, 27), (46, 27), (47, 28), (47, 26), (48, 23), (46, 23), (47, 24),
      (47, 22), (47, 28), (45, 28), (46, 29), (46, 27), (47, 22), (45, 22), (46, 23),
      (46, 21), (46, 29), (44, 29), (45, 30), (45, 28), (46, 21), (44, 21), (45, 22),
      (45, 20), (45, 30), (43, 30), (44, 31), (44, 29), (45, 20), (43, 20), (44, 21),
      (44, 19), (44, 31), (42, 31), (43, 32), (43, 30), (44, 19), (42, 19), (43, 20),
      (43, 18), (43, 32), (41, 32), (42, 33), (42, 31), (43, 18), (41, 18), (42, 19),
      (42, 17), (42, 33), (40, 33), (41, 34), (41, 32), (42, 17), (40, 17), (41, 18),
      (41, 16), (41, 34), (39, 34), (40, 35), (40, 33), (41, 16), (39, 16), (40, 17),
      (40, 15), (40, 35), (38, 35), (39, 36), (39, 34), (40, 15), (38, 15), (39, 16),
      (39, 14), (39, 36), (37, 36), (38, 37), (38, 35), (39, 14), (37, 14), (38, 15),
      (38, 13), (38, 37), (36, 37), (37, 38), (37, 36), (38, 13), (36, 13), (37, 14),
      (37, 12), (37, 38), (35, 38), (36, 39), (36, 37), (37, 12), (35, 12), (36, 13),
      (36, 11), (36, 39), (34, 39), (35, 40), (35, 38), (36, 11), (34, 11), (35, 12),
      (35, 10), (35, 40), (33, 40), (34, 41), (34, 39), (35, 10), (33, 10), (34, 11),
      (34, 9), (34, 41), (32, 41), (33, 42), (33, 40), (34, 9), (32, 9), (33, 10),
      (33, 8), (33, 42), (31, 42), (32, 43), (32, 41), (33, 8), (31, 8), (32, 9),
      (32, 7), (32, 43), (30, 43), (31, 44), (31, 42), (32, 7), (30, 7), (31, 8),
      (31, 6), (31, 44), (29, 44), (30, 45), (30, 43)]
    minX := 2
    maxX := 49
    minY := 2
    maxY := 48
    pixelCount := 1143
    done := false }

/-- State of the packed 50 by 50 uniform-image run 600 steps after
`c3s7`, recorded literally so that each chunk of the concrete
evaluation stays within the kernel's reduction depth. -/
def c3s8 : FFStateP :=
  { mask := 33601643751990977363814022845739980601568452713132188532988693414831842440261074110890129957338416838996948444580799297131470937288317336079802789230369109092184828926185763880587247615416851916573008958832048955024223007676110840229708319610754357469644162743377399179608059793088721366621042161308075532797032311255379840730463159884558407180555391702492747218232697515021446482844820343911655629678652241464695949128508070275637607191234707943641212718486013771837781794309365948185853058827337697593105366445076621793830310561672674935680298766181855453358319827145001865047006719080369897271758228297727681976930812717316413614902113292905743423210894464020374339659407800433527726720245248181379573112125422248751254667072886382575352807424
    visited := 33601643751990977363814022845739980601568452713132188532988693414831842440261074110890129957338416838996948444580799297131470937288317336079802789230369109092184828926185763880587247615416851916573008958832048955024223007676110840229708319610754357469644162743377399179608059793088721366621042161308075532797032311255379840730463159884558407180555391702492747218232697515021446482844820343911655629678652241464695949128508070275637607191234707943641212718486013771837781794309365948185853058827337697593105366445076621793830310561672674935680298766181855453358319827145001865047006719080369897271758228297727681976930812717316413614902113292905743423210894464020374339659407800433527726720245248181379573112125422248751254667072886382575352807424
    queue := [(1, 24), (3, 26), (1, 26), (2, 27), (2, 25), (3, 24), (1, 24), (2, 25),
      (2, 23), (4, 27), (2, 27), (3, 28), (3, 26), (4, 23), (2, 23), (3, 24),
      (3, 22), (5, 28), (3, 28), (4, 29), (4, 27), (5, 22), (3, 22), (4, 23),
      (4, 21), (6, 29), (4, 29), (5, 30), (5, 28), (6, 21), (4, 21), (5, 22),
      (5, 20), (7, 30), (5, 30), (6, 31), (6, 29), (7, 20), (5, 20), (6, 21),
      (6, 19), (8, 31), (6, 31), (7, 32), (7, 30), (8, 19), (6, 19), (7, 20),
      (7, 18), (9, 32), (7, 32), (8, 33), (8, 31), (9, 18), (7, 18), (8, 19),
      (8, 17), (10, 33), (8, 33), (9, 34), (9, 32), (10, 17), (8, 17), (9, 18),
      (9, 16), (11, 34), (9, 34), (10, 35), (10, 33), (11, 16), (9, 16), (10, 17),
      (10, 15), (12, 35), (10, 35), (11, 36), (11, 34), (12, 15), (10, 15), (11, 16),
      (11, 14), (13, 36), (11, 36), (12, 37), (12, 35), (13, 14), (11, 14), (12, 15),
      (12, 13), (14, 37), (12, 37), (13, 38), (13, 36), (14, 13), (12, 13), (13, 14),
      (13, 12), (15, 38), (13, 38), (14, 39), (14, 37), (15, 12), (13, 12), (14, 13),
      (14, 11), (16, 39), (14, 39), (15, 40), (15, 38), (16, 11), (14, 11), (15, 12),
      (15, 10), (17, 40), (15, 40), (16, 41), (16, 39), (17, 10), (15, 10), (16, 11),
      (16, 9), (18, 41), (16, 41), (17, 42), (17, 40), (18, 9), (16, 9), (17, 10),
      (17, 8), (19, 42), (17, 42), (18, 43), (18, 41), (19, 8), (17, 8), (18, 9),
      (18, 7), (20, 43), (18, 43), (19, 44), (19, 42), (20, 7), (18, 7), (19, 8),
      (19, 6), (21, 44), (19, 44), (20, 45), (20, 43), (21, 6), (19, 6), (20, 7),
      (20, 5), (22, 45), (20, 45), (21, 46), (21, 44), (22, 5), (20, 5), (21, 6),
      (21, 4), (23, 46), (21, 46), (22, 47), (22, 45), (23, 4), (21, 4), (22, 5),
      (22, 3), (24, 47), (22, 47), (23, 48), (23, 46), (24, 3), (22, 3), (23, 4),
      (23, 2), (25, 48), (23, 48), (24, 49), (24, 47), (25, 2), (23, 2), (24, 3),
      (24, 1), (26, 49), (24, 49), (25, 50), (25, 48), (26, 1), (24, 1), (25, 2),
      (25, 0), (50, 26), (48, 26), (49, 27), (49, 25), (50, 24), (48, 24), (49, 25),
      (49, 23), (49, 27), (47, 27), (48, 28), (48, 26), (49, 23), (47, 23), (48, 24),
      (48, 22), (48, 28), (46, 28), (47, 29), (47, 27), (48, 22), (46, 22), (47, 23),
      (47, 21), (47, 29), (45, 29), (46, 30), (46, 28), (47, 21), (45, 21), (46, 22),
      (46, 20), (46, 30), (44, 30), (45, 31), (45, 29), (46, 20), (44, 20), (45, 21),
      (45, 19), (45, 31), (43, 31), (44, 32), (44, 30), (45, 19), (43, 19), (44, 20),
      (44, 18), (44, 32), (42, 32), (43, 33), (43, 31), (44, 18), (42, 18), (43, 19),
      (43, 17), (43, 33), (41, 33), (42, 34), (42, 32), (43, 17), (41, 17), (42, 18),
      (42, 16), (42, 34), (40, 34), (41, 35), (41, 33), (42, 16), (40, 16), (41, 17),
      (41, 15), (41, 35), (39, 35), (40, 36), (40, 34), (41, 15), (39, 15), (40, 16),
      (40, 14), (40, 36), (38, 36), (39, 37), (39, 35), (40, 14), (38, 14), (39, 15),
      (39, 13), (39, 37), (37, 37), (38, 38), (38, 36), (39, 13), (37, 13), (38, 14),
      (38, 12), (38, 38), (36, 38), (37, 39), (37, 37), (38, 12), (36, 12), (37, 13),
      (37, 11), (37, 39), (35, 39), (36, 40), (36, 38), (37, 11), (35, 11), (36, 12),
      (36, 10), (36, 40), (34, 40), (35, 41), (35, 39), (36, 10), (34, 10), (35, 11),
      (35, 9), (35, 41), (33, 41), (34, 42), (34, 40), (35, 9), (33, 9), (34, 10),
      (34, 8), (34, 42), (32, 42), (33, 43), (33, 41), (34, 8), (32, 8), (33, 9),
      (33, 7), (33, 43), (31, 43), (32, 44), (32, 42), (33, 7), (31, 7), (32, 8),
      (32, 6), (32, 44), (30, 44), (31, 45), (31, 43), (32, 6), (30, 6), (31, 7),
      (31, 5), (31, 45), (29, 45), (30, 46), (30, 44), (31, 5), (29, 5), (30, 6),
      (30, 4), (30, 46), (28, 46), (29, 47), (29, 45), (30, 4), (28, 4), (29, 5),
      (29, 3), (29, 47), (27, 47), (28, 48), (28, 46), (29, 3), (27, 3), (28, 4),
      (28, 2), (28, 48), (26, 48), (27, 49), (27, 47), (28, 2), (26, 2), (27, 3),
      (27, 1), (27, 49), (25, 49), (26, 50), (26, 48), (27, 1), (25, 1), (26, 2),
      (26, 0), (1, 25), (-1, 25), (0, 26), (0, 24), (2, 26), (0, 26), (1, 27),
      (1, 25)]
    minX := 0
    maxX := 49
    minY := 1
    maxY := 49
    pixelCount := 1251
    done := true }

theorem c3chunk1 :
    ffLoopP uniformGray 50 50 128 128 128 30 600 c3init = c3s1 := by
  decide

theorem c3chunk2 :
    ffLoopP uniformGray 50 50 128 128 128 30 600 c3s1 = c3s2 := by
  decide

theorem c3chunk3 :
    ffLoopP uniformGray 50 50 128 128 128 30 600 c3s2 = c3s3 := by
  decide

theorem c3chunk4 :
    ffLoopP uniformGray 50 50 128 128 128 30 600 c3s3 = c3s4 := by
  decide

theorem c3chunk5 :
    ffLoopP uniformGray 50 50 128 128 128 30 600 c3s4 = c3s5 := by
  decide

theorem c3chunk6 :
    ffLoopP uniformGray 50 50 128 128 128 30 600 c3s5 = c3s6 := by
  decide

theorem c3chunk7 :
    ffLoopP uniformGray 50 50 128 128 128 30 600 c3s6 = c3s7 := by
  decide

theorem c3chunk8 :
    ffLoopP uniformGray 50 50 128 128 128 30 600 c3s7 = c3s8 := by
  decide

/-- The packed C3 run, chunked into bounded-depth pieces, ends in
`c3s8`: 1251 accepted pixels, a nonempty queue, and the partial box
x 0..49, y 1..49. -/
theorem c3RunEval : floodFillStateP uniformGray 50 50 25 25 0 30 = c3s8 := by
  have hsplit : floodFillStateP uniformGray 50 50 25 25 0 30
      = ffLoopP uniformGray 50 50 128 128 128 30 12501 c3init := rfl
  rw [hsplit]
  rw [show (12501 : Nat)
    = 600 + (600 + (600 + (600 + (600 + (600 + (600 + (600 + 7701))))))) from rfl]
  rw [ffLoopP_add, c3chunk1, ffLoopP_add, c3chunk2, ffLoopP_add, c3chunk3,
    ffLoopP_add, c3chunk4, ffLoopP_add, c3chunk5, ffLoopP_add, c3chunk6,
    ffLoopP_add, c3chunk7, ffLoopP_add, c3chunk8]
  exact ffLoopP_done uniformGray 50 50 128 128 128 30 7701 c3s8 rfl

/-- C3 counterexample.  On a uniform 50 by 50 image with tolerance 30
and seed (25, 25), the run terminates with accepted pixel count 1251:
the cap `pixelCount > width * height * 0.5` breaks the loop only after
the 1251st acceptance, so the claimed bound `pixelCount ≤ 1250` is
false on the code. -/
theorem cap_claim_counterexample :
    ¬ ((floodFillState uniformGray 50 50 25 25 (fun _ => 0) 30).pixelCount
      ≤ 1250) := by
  have hpc := (relP_floodFillState uniformGray 50 50 25 25 30).2.2.2.2.2.2.2
  rw [hpc, c3RunEval]
  decide

/-- C3 amended.  On the uniform 50 by 50 image with tolerance 30 and
seed (25, 25), the 50-percent safety cap triggers and the run stops
early: it terminates with accepted pixel count exactly 1251 (the least
count exceeding half of the 2500 image pixels), pending work still in
the queue, and a valid partial bounding box (x from 0 to 49, y from 1
to 49) on a returned region. -/
theorem cap_amended :
    (floodFillState uniformGray 50 50 25 25 (fun _ => 0) 30).pixelCount = 1251
    ∧ 50 * 50
        < 2 * (floodFillState uniformGray 50 50 25 25 (fun _ => 0) 30).pixelCount
    ∧ (floodFillState uniformGray 50 50 25 25 (fun _ => 0) 30).queue ≠ []
    ∧ (floodFillState uniformGray 50 50 25 25 (fun _ => 0) 30).minX = 0
    ∧ (floodFillState uniformGray 50 50 25 25 (fun _ => 0) 30).maxX = 49
    ∧ (floodFillState uniformGray 50 50 25 25 (fun _ => 0) 30).minY = 1
    ∧ (floodFillState uniformGray 50 50 25 25 (fun _ => 0) 30).maxY = 49
    ∧ ((floodFill uniformGray 50 50 25 25 (fun _ => 0) 30).1).isSome = true := by
  obtain ⟨hm, hv, hq, h1, h2, h3, h4, h5⟩ :=
    relP_floodFillState uniformGray 50 50 25 25 30
  rw [c3RunEval] at hq h1 h2 h3 h4 h5
  refine ⟨?_, ?_, ?_, ?_, ?_, ?_, ?_, ?_⟩
  · rw [h5]; rfl
  · rw [h5]; decide
  · rw [hq]; decide
  · rw [h1]; rfl
  · rw [h2]; rfl
  · rw [h3]; rfl
  · rw [h4]; rfl
  · simp only [floodFill]
    rw [if_neg (by rw [h5]; decide)]
    rfl

/-! ### Remaining concrete witnesses -/

/-- A 20 by 20 test image: every channel byte of pixels in the left 8
columns reads 200, all other bytes read 10. -/
def stripeImage : Nat → Nat := fun i => if (i / 4) % 20 < 8 then 200 else 10

/-- C2 witness: on the stripe image, flood fill from (3, 3) accepts the
whole 160-pixel left stripe (so at least 100 pixels) and a region is
returned. -/
theorem floodFill_result_spec_witness :
    100 ≤ (floodFillState stripeImage 20 20 3 3 (fun _ => 0) 30).pixelCount
    ∧ ((floodFill stripeImage 20 20 3 3 (fun _ => 0) 30).1).isSome = true := by
  have hpc := (relP_floodFillState stripeImage 20 20 3 3 30).2.2.2.2.2.2.2
  have h : 100 ≤ (floodFillState stripeImage 20 20 3 3 (fun _ => 0) 30).pixelCount := by
    rw [hpc]
    decide
  refine ⟨h, ?_⟩
  obtain ⟨r, hr, -, -, -, -, -, -, -, -⟩ :=
    (floodFill_result_spec stripeImage 20 20 3 3 (fun _ => 0) 30).2 h
  rw [hr]
  rfl

/-- C6 witness: a full auto-segmentation run on a uniform 5 by 5 image
(grid stride 1, all regions below the 100-pixel minimum) returns the
empty region list, which the disjointness theorem covers. -/
theorem autoSegment_disjoint_witness :
    List.Pairwise disjointRegions ([] : List Region) :=
  autoSegment_disjoint uniformGray 5 5 [] rfl

/-- C7 witness at a concrete image, seed and pair of fresh visited
bitmaps. -/
theorem floodFill_deterministic_witness :
    (floodFill uniformGray 3 3 1 1 (fun _ => 0) 30).1
      = (floodFill uniformGray 3 3 1 1 (fun _ => 0) 30).1 :=
  floodFill_deterministic uniformGray 3 3 1 1 30 (fun _ => 0) (fun _ => 0)
    (fun _ => rfl) (fun _ => rfl)

end SamCutout
